import Mathlib

/-!
# Verification of the AtomDB core (`src/atomdb/api.py`)

A shallow embedding of the AtomDB species store: the MessagePack record
codec used by `Species._dump` / `load`, the key-to-path scheme of
`Species._msgfile`, the element table lookups `element_number` /
`element_symbol`, and the spline reconstruction engine
(`cubic_interp`, `interp1d_log`, and the four `*_spline` methods).

Conventions of the embedding:
* a byte is a `Nat` (kept `< 256` by the encoders);
* a Python `str` that flows through the MessagePack codec is modelled by
  its UTF-8 byte list (`List Nat`); strings used for path formatting and
  spin selection are modelled by Lean `String`;
* an IEEE-754 double is modelled by its 64-bit pattern (a `Nat < 2^64`),
  so "bit-exact" equalities are literal equalities;
* a 1-D `numpy.float64` array is a `List Nat` of such bit patterns;
* Python exceptions are modelled by an explicit error type, fallible
  operations return `Except` / `Option`.
-/

namespace AtomDB

/-! ## Byte-string primitives

`beBytes`/`beVal` are the big-endian fixed-width integers used inside the
MessagePack wire format; `leBytes`/`leVal` are the little-endian 8-byte
words of a native `numpy.float64` buffer (`ndarray.tobytes` /
`numpy.frombuffer` on a little-endian host).
-/

/-- Embeds the `k`-byte big-endian encoding of `n` used by MessagePack
length and integer fields. -/
def beBytes : Nat → Nat → List Nat
  | 0, _ => []
  | k + 1, n => beBytes k (n / 256) ++ [n % 256]

/-- Embeds the big-endian value of a byte string. -/
def beVal (bs : List Nat) : Nat :=
  bs.foldl (fun a b => a * 256 + b) 0

/-- Embeds the `k`-byte little-endian encoding of `n` (one word of an
`ndarray` buffer). -/
def leBytes : Nat → Nat → List Nat
  | 0, _ => []
  | k + 1, n => n % 256 :: leBytes k (n / 256)

/-- Embeds the little-endian value of a byte string. -/
def leVal (bs : List Nat) : Nat :=
  bs.foldr (fun b a => b + 256 * a) 0

/-- Embeds reading exactly `k` bytes from the head of a buffer. -/
def readN (k : Nat) (bs : List Nat) : Option (List Nat × List Nat) :=
  if k ≤ bs.length then some (bs.take k, bs.drop k) else none

theorem beBytes_length (k n : Nat) : (beBytes k n).length = k := by
  induction k generalizing n with
  | zero => rfl
  | succ k ih => simp [beBytes, ih]

theorem leBytes_length (k n : Nat) : (leBytes k n).length = k := by
  induction k generalizing n with
  | zero => rfl
  | succ k ih => simp [leBytes, ih]

theorem beVal_foldl (bs : List Nat) (a : Nat) :
    bs.foldl (fun a b => a * 256 + b) a = a * 256 ^ bs.length + beVal bs := by
  induction bs generalizing a with
  | nil => simp [beVal]
  | cons b bs ih =>
    simp only [List.foldl_cons, beVal, List.length_cons]
    rw [ih (a * 256 + b), ih (0 * 256 + b)]
    ring

theorem beVal_append_singleton (xs : List Nat) (b : Nat) :
    beVal (xs ++ [b]) = beVal xs * 256 + b := by
  simp only [beVal, List.foldl_append, List.foldl_cons, List.foldl_nil]

theorem digit_split (n m : Nat) (hm : 0 < m) :
    n % (256 * m) = 256 * (n / 256 % m) + n % 256 := by
  have h1 : (256 * (n / 256)) % (256 * m) = 256 * (n / 256 % m) :=
    Nat.mul_mod_mul_left 256 _ m
  have h2 : n % 256 < 256 := Nat.mod_lt _ (by norm_num)
  have h3 : n / 256 % m < m := Nat.mod_lt _ hm
  have h4 : 256 * (n / 256 % m + 1) ≤ 256 * m := Nat.mul_le_mul_left 256 h3
  calc n % (256 * m)
      = (256 * (n / 256) + n % 256) % (256 * m) := by rw [Nat.div_add_mod]
    _ = ((256 * (n / 256)) % (256 * m) + (n % 256) % (256 * m)) % (256 * m) := by
        rw [← Nat.add_mod]
    _ = (256 * (n / 256 % m) + n % 256) % (256 * m) := by
        rw [h1, Nat.mod_eq_of_lt (show n % 256 < 256 * m by omega)]
    _ = 256 * (n / 256 % m) + n % 256 := Nat.mod_eq_of_lt (by omega)

theorem beVal_beBytes (k n : Nat) : beVal (beBytes k n) = n % 256 ^ k := by
  induction k generalizing n with
  | zero => simp [beBytes, beVal, Nat.mod_one]
  | succ k ih =>
    simp only [beBytes]
    rw [beVal_append_singleton, ih]
    rw [pow_succ, mul_comm (256 ^ k) 256, digit_split n (256 ^ k) (Nat.pos_pow_of_pos k (by norm_num))]
    ring

theorem beVal_beBytes_of_lt {k n : Nat} (h : n < 256 ^ k) :
    beVal (beBytes k n) = n := by
  rw [beVal_beBytes, Nat.mod_eq_of_lt h]

theorem leVal_leBytes (k n : Nat) : leVal (leBytes k n) = n % 256 ^ k := by
  induction k generalizing n with
  | zero => simp [leBytes, leVal, Nat.mod_one]
  | succ k ih =>
    simp only [leBytes, leVal, List.foldr_cons]
    rw [show (leBytes k (n / 256)).foldr (fun b a => b + 256 * a) 0 = leVal (leBytes k (n / 256)) from rfl]
    rw [ih]
    rw [pow_succ, mul_comm (256 ^ k) 256, digit_split n (256 ^ k) (Nat.pos_pow_of_pos k (by norm_num))]
    ring

theorem leVal_leBytes_of_lt {k n : Nat} (h : n < 256 ^ k) :
    leVal (leBytes k n) = n := by
  rw [leVal_leBytes, Nat.mod_eq_of_lt h]

theorem readN_exact {k : Nat} {xs : List Nat} (r : List Nat) (h : xs.length = k) :
    readN k (xs ++ r) = some (xs, r) := by
  subst h
  simp [readN, List.take_left, List.drop_left]

/-! ## The MessagePack wire format

`Species._dump` serializes a string-keyed map with
`Packer(use_bin_type=True)`, and `load` reads it back with
`Unpacker(use_list=False, strict_map_key=True)`.  The values that occur
in an AtomDB record are: nil (`None`), integers, float64 scalars, UTF-8
strings, raw byte strings (the array buffers) and flat maps whose values
are again scalars (the radius dictionaries).  We embed the wire format
for exactly this two-level shape, byte for byte.
-/

/-- A scalar MessagePack value as produced by `Species._dump`. -/
inductive MsgScalar where
  | nil : MsgScalar
  | int (i : Int) : MsgScalar
  | float (bits : Nat) : MsgScalar
  | str (s : List Nat) : MsgScalar
  | bin (b : List Nat) : MsgScalar
deriving DecidableEq

/-- A MessagePack value of the shapes `Species._dump` writes: a scalar
or a flat string-keyed map of scalars (the radius dictionaries). -/
inductive MsgValue where
  | scalar (s : MsgScalar) : MsgValue
  | map (entries : List (List Nat × MsgScalar)) : MsgValue
deriving DecidableEq

/-- Embeds `msgpack.Packer`'s integer encoding: the smallest of fixint,
uint8/16/32/64 or int8/16/32/64 that fits; out-of-range integers make the
packer fail. -/
def encInt (i : Int) : Option (List Nat) :=
  if 0 ≤ i then
    if i.toNat < 128 then some [i.toNat]
    else if i.toNat < 256 then some [0xcc, i.toNat]
    else if i.toNat < 65536 then some (0xcd :: beBytes 2 i.toNat)
    else if i.toNat < 4294967296 then some (0xce :: beBytes 4 i.toNat)
    else if i.toNat < 18446744073709551616 then some (0xcf :: beBytes 8 i.toNat)
    else none
  else
    if -32 ≤ i then some [(i + 256).toNat]
    else if -128 ≤ i then some [0xd0, (i + 256).toNat]
    else if -32768 ≤ i then some (0xd1 :: beBytes 2 (i + 65536).toNat)
    else if -2147483648 ≤ i then some (0xd2 :: beBytes 4 (i + 4294967296).toNat)
    else if -9223372036854775808 ≤ i then
      some (0xd3 :: beBytes 8 (i + 18446744073709551616).toNat)
    else none

/-- Embeds the str-format header (`use_bin_type=True`: fixstr, str8,
str16 or str32). -/
def strHeader (n : Nat) : Option (List Nat) :=
  if n < 32 then some [0xa0 + n]
  else if n < 256 then some [0xd9, n]
  else if n < 65536 then some (0xda :: beBytes 2 n)
  else if n < 4294967296 then some (0xdb :: beBytes 4 n)
  else none

/-- Embeds the bin-format header (`use_bin_type=True`: bin8, bin16 or
bin32). -/
def binHeader (n : Nat) : Option (List Nat) :=
  if n < 256 then some [0xc4, n]
  else if n < 65536 then some (0xc5 :: beBytes 2 n)
  else if n < 4294967296 then some (0xc6 :: beBytes 4 n)
  else none

/-- Embeds the map-format header (fixmap, map16 or map32). -/
def mapHeader (n : Nat) : Option (List Nat) :=
  if n < 16 then some [0x80 + n]
  else if n < 65536 then some (0xde :: beBytes 2 n)
  else if n < 4294967296 then some (0xdf :: beBytes 4 n)
  else none

/-- Embeds `msgpack.Packer` on one scalar value.  A float64 is written
as `0xcb` followed by its big-endian bit pattern. -/
def encScalar : MsgScalar → Option (List Nat)
  | .nil => some [0xc0]
  | .int i => encInt i
  | .float bits =>
    if bits < 18446744073709551616 then some (0xcb :: beBytes 8 bits) else none
  | .str s => (strHeader s.length).map (· ++ s)
  | .bin b => (binHeader b.length).map (· ++ b)

/-- Embeds `msgpack.Packer` on the entry list of a flat map. -/
def encEntries : List (List Nat × MsgScalar) → Option (List Nat)
  | [] => some []
  | (k, v) :: rest =>
    match encScalar (.str k), encScalar v, encEntries rest with
    | some kb, some vb, some rb => some (kb ++ vb ++ rb)
    | _, _, _ => none

/-- Embeds `msgpack.Packer` on one value. -/
def encValue : MsgValue → Option (List Nat)
  | .scalar s => encScalar s
  | .map es =>
    match mapHeader es.length, encEntries es with
    | some hd, some body => some (hd ++ body)
    | _, _ => none

/-- Embeds `msgpack.Packer` on the entry list of the top-level map. -/
def encTopEntries : List (List Nat × MsgValue) → Option (List Nat)
  | [] => some []
  | (k, v) :: rest =>
    match encScalar (.str k), encValue v, encTopEntries rest with
    | some kb, some vb, some rb => some (kb ++ vb ++ rb)
    | _, _, _ => none

/-- Embeds `pack_msg` (src/atomdb/api.py:331-333): serialize the
string-keyed record map with `Packer(use_bin_type=True)`. -/
def pack_msg (es : List (List Nat × MsgValue)) : Option (List Nat) :=
  match mapHeader es.length, encTopEntries es with
  | some hd, some body => some (hd ++ body)
  | _, _ => none

/-- Embeds the signed reading of a `k`-byte two's-complement integer
(int8/int16/int32/int64 formats). -/
def sVal (v m : Nat) : Int :=
  if v < m / 2 then (v : Int) else (v : Int) - (m : Int)

/-- Embeds `msgpack.Unpacker` on one scalar value: dispatch on the
format byte, then read the payload. -/
def decScalar (bs : List Nat) : Option (MsgScalar × List Nat) :=
  match bs with
  | [] => none
  | b :: rest =>
    if b < 0x80 then some (.int b, rest)
    else if 0xe0 ≤ b ∧ b < 0x100 then some (.int ((b : Int) - 256), rest)
    else if b = 0xc0 then some (.nil, rest)
    else if b = 0xcb then
      (readN 8 rest).map (fun (c, r) => (.float (beVal c), r))
    else if b = 0xcc then
      (readN 1 rest).map (fun (c, r) => (.int (beVal c), r))
    else if b = 0xcd then
      (readN 2 rest).map (fun (c, r) => (.int (beVal c), r))
    else if b = 0xce then
      (readN 4 rest).map (fun (c, r) => (.int (beVal c), r))
    else if b = 0xcf then
      (readN 8 rest).map (fun (c, r) => (.int (beVal c), r))
    else if b = 0xd0 then
      (readN 1 rest).map (fun (c, r) => (.int (sVal (beVal c) 256), r))
    else if b = 0xd1 then
      (readN 2 rest).map (fun (c, r) => (.int (sVal (beVal c) 65536), r))
    else if b = 0xd2 then
      (readN 4 rest).map (fun (c, r) => (.int (sVal (beVal c) 4294967296), r))
    else if b = 0xd3 then
      (readN 8 rest).map (fun (c, r) => (.int (sVal (beVal c) 18446744073709551616), r))
    else if 0xa0 ≤ b ∧ b < 0xc0 then
      (readN (b - 0xa0) rest).map (fun (c, r) => (.str c, r))
    else if b = 0xd9 then
      match readN 1 rest with
      | some (c, r) =>
        match readN (beVal c) r with
        | some (s2, r2) => some (.str s2, r2)
        | none => none
      | none => none
    else if b = 0xda then
      match readN 2 rest with
      | some (c, r) =>
        match readN (beVal c) r with
        | some (s2, r2) => some (.str s2, r2)
        | none => none
      | none => none
    else if b = 0xdb then
      match readN 4 rest with
      | some (c, r) =>
        match readN (beVal c) r with
        | some (s2, r2) => some (.str s2, r2)
        | none => none
      | none => none
    else if b = 0xc4 then
      match readN 1 rest with
      | some (c, r) =>
        match readN (beVal c) r with
        | some (s2, r2) => some (.bin s2, r2)
        | none => none
      | none => none
    else if b = 0xc5 then
      match readN 2 rest with
      | some (c, r) =>
        match readN (beVal c) r with
        | some (s2, r2) => some (.bin s2, r2)
        | none => none
      | none => none
    else if b = 0xc6 then
      match readN 4 rest with
      | some (c, r) =>
        match readN (beVal c) r with
        | some (s2, r2) => some (.bin s2, r2)
        | none => none
      | none => none
    else none

/-- Embeds `msgpack.Unpacker` on a map-format header. -/
def decMapHeader (bs : List Nat) : Option (Nat × List Nat) :=
  match bs with
  | [] => none
  | b :: rest =>
    if 0x80 ≤ b ∧ b < 0x90 then some (b - 0x80, rest)
    else if b = 0xde then (readN 2 rest).map (fun (c, r) => (beVal c, r))
    else if b = 0xdf then (readN 4 rest).map (fun (c, r) => (beVal c, r))
    else none

/-- Whether a format byte opens a map. -/
def isMapHeaderByte (b : Nat) : Prop :=
  (0x80 ≤ b ∧ b < 0x90) ∨ b = 0xde ∨ b = 0xdf

instance (b : Nat) : Decidable (isMapHeaderByte b) := by
  unfold isMapHeaderByte; infer_instance

/-- Embeds `msgpack.Unpacker` on `n` entries of a flat map whose keys
must be strings (`strict_map_key=True`) and whose values are scalars. -/
def decEntries : Nat → List Nat → Option (List (List Nat × MsgScalar) × List Nat)
  | 0, bs => some ([], bs)
  | n + 1, bs =>
    match decScalar bs with
    | some (.str k, bs1) =>
      match decScalar bs1 with
      | some (v, bs2) =>
        match decEntries n bs2 with
        | some (rest, bs3) => some ((k, v) :: rest, bs3)
        | none => none
      | none => none
    | _ => none

/-- Embeds `msgpack.Unpacker` on one value: a flat map or a scalar. -/
def decValue (bs : List Nat) : Option (MsgValue × List Nat) :=
  match bs with
  | [] => none
  | b :: _ =>
    if isMapHeaderByte b then
      match decMapHeader bs with
      | some (n, bs1) =>
        match decEntries n bs1 with
        | some (es, bs2) => some (.map es, bs2)
        | none => none
      | none => none
    else (decScalar bs).map (fun (s, r) => (.scalar s, r))

/-- Embeds `msgpack.Unpacker` on `n` entries of the top-level map
(string keys, arbitrary values of the dumped shapes). -/
def decTopEntries : Nat → List Nat → Option (List (List Nat × MsgValue) × List Nat)
  | 0, bs => some ([], bs)
  | n + 1, bs =>
    match decScalar bs with
    | some (.str k, bs1) =>
      match decValue bs1 with
      | some (v, bs2) =>
        match decTopEntries n bs2 with
        | some (rest, bs3) => some ((k, v) :: rest, bs3)
        | none => none
      | none => none
    | _ => none

/-- Embeds `unpack_msg` (src/atomdb/api.py:336-338): read one top-level
map from the buffer with `Unpacker(use_list=False, strict_map_key=True)`. -/
def unpack_msg (bs : List Nat) : Option (List (List Nat × MsgValue)) :=
  match decMapHeader bs with
  | some (n, bs1) =>
    match decTopEntries n bs1 with
    | some (es, _) => some es
    | none => none
  | none => none

/-! ## Round trip of the wire format -/

theorem beVal_singleton (b : Nat) : beVal [b] = b := by
  simp [beVal]

theorem readN_one (x : Nat) (r : List Nat) : readN 1 (x :: r) = some ([x], r) := by
  simp [readN]

theorem decScalar_encInt {i : Int} {bs : List Nat} (h : encInt i = some bs) (r : List Nat) :
    decScalar (bs ++ r) = some (.int i, r) := by
  unfold encInt at h
  by_cases h0 : 0 ≤ i
  · rw [if_pos h0] at h
    split_ifs at h with h1 h2 h3 h4 h5 <;> cases h
    · -- positive fixint
      have hb : i.toNat < 0x80 := h1
      simp only [List.cons_append, decScalar, if_pos hb]
      rw [show ((i.toNat : Int)) = i by omega, List.nil_append]
    · -- uint8
      simp only [List.cons_append, decScalar]
      norm_num [readN_one, beVal_singleton]
      omega
    · -- uint16
      simp only [List.cons_append, decScalar]
      norm_num [readN_exact r (beBytes_length 2 i.toNat),
        beVal_beBytes_of_lt (show i.toNat < 256 ^ 2 by omega)]
      omega
    · -- uint32
      simp only [List.cons_append, decScalar]
      norm_num [readN_exact r (beBytes_length 4 i.toNat),
        beVal_beBytes_of_lt (show i.toNat < 256 ^ 4 by norm_num; omega)]
      omega
    · -- uint64
      simp only [List.cons_append, decScalar]
      norm_num [readN_exact r (beBytes_length 8 i.toNat),
        beVal_beBytes_of_lt (show i.toNat < 256 ^ 8 by norm_num; omega)]
      omega
  · rw [if_neg h0] at h
    split_ifs at h with h1 h2 h3 h4 h5 <;> cases h
    · -- negative fixint
      have hb1 : ¬ ((i + 256).toNat < 0x80) := by omega
      have hb2 : 0xe0 ≤ (i + 256).toNat ∧ (i + 256).toNat < 0x100 := by omega
      simp only [List.cons_append, decScalar, if_neg hb1, if_pos hb2]
      rw [show (((i + 256).toNat : Int)) - 256 = i by omega, List.nil_append]
    · -- int8
      simp only [List.cons_append, decScalar]
      norm_num [readN_one, beVal_singleton, sVal]
      omega
    · -- int16
      simp only [List.cons_append, decScalar]
      norm_num [readN_exact r (beBytes_length 2 (i + 65536).toNat),
        beVal_beBytes_of_lt (show (i + 65536).toNat < 256 ^ 2 by omega), sVal]
      omega
    · -- int32
      simp only [List.cons_append, decScalar]
      norm_num [readN_exact r (beBytes_length 4 (i + 4294967296).toNat),
        beVal_beBytes_of_lt (show (i + 4294967296).toNat < 256 ^ 4 by norm_num; omega), sVal]
      omega
    · -- int64
      simp only [List.cons_append, decScalar]
      norm_num [readN_exact r (beBytes_length 8 (i + 18446744073709551616).toNat),
        beVal_beBytes_of_lt
          (show (i + 18446744073709551616).toNat < 256 ^ 8 by norm_num; omega), sVal]
      omega

theorem decScalar_encNil {bs : List Nat} (h : encScalar .nil = some bs) (r : List Nat) :
    decScalar (bs ++ r) = some (.nil, r) := by
  simp only [encScalar] at h
  cases h
  norm_num [decScalar]

theorem decScalar_encFloat {bits : Nat} {bs : List Nat}
    (h : encScalar (.float bits) = some bs) (r : List Nat) :
    decScalar (bs ++ r) = some (.float bits, r) := by
  simp only [encScalar] at h
  split_ifs at h with h1
  cases h
  simp only [List.cons_append, decScalar]
  norm_num [readN_exact r (beBytes_length 8 bits),
    beVal_beBytes_of_lt (show bits < 256 ^ 8 by norm_num; omega)]

theorem decScalar_encStr {s bs : List Nat} (h : encScalar (.str s) = some bs) (r : List Nat) :
    decScalar (bs ++ r) = some (.str s, r) := by
  simp only [encScalar] at h
  unfold strHeader at h
  split_ifs at h with h1 h2 h3 h4 <;>
    simp only [Option.map_some', Option.map_none'] at h <;> cases h
  · -- fixstr
    show decScalar (((0xa0 + s.length) :: s) ++ r) = some (.str s, r)
    simp only [List.cons_append, decScalar]
    iterate 12 rw [if_neg (by omega)]
    rw [if_pos (show 0xa0 ≤ 0xa0 + s.length ∧ 0xa0 + s.length < 0xc0 by omega)]
    rw [show 0xa0 + s.length - 0xa0 = s.length by omega, readN_exact r rfl]
    rfl
  · -- str8
    show decScalar ((0xd9 :: s.length :: s) ++ r) = some (.str s, r)
    simp only [List.cons_append, decScalar]
    norm_num [readN_one, beVal_singleton, readN_exact r rfl]
  · -- str16
    show decScalar ((0xda :: (beBytes 2 s.length ++ s)) ++ r) = some (.str s, r)
    simp only [List.cons_append, List.append_assoc, decScalar]
    norm_num [readN_exact (s ++ r) (beBytes_length 2 s.length),
      beVal_beBytes_of_lt (show s.length < 256 ^ 2 by omega), readN_exact r rfl]
  · -- str32
    show decScalar ((0xdb :: (beBytes 4 s.length ++ s)) ++ r) = some (.str s, r)
    simp only [List.cons_append, List.append_assoc, decScalar]
    norm_num [readN_exact (s ++ r) (beBytes_length 4 s.length),
      beVal_beBytes_of_lt (show s.length < 256 ^ 4 by norm_num; omega), readN_exact r rfl]

theorem decScalar_encBin {b bs : List Nat} (h : encScalar (.bin b) = some bs) (r : List Nat) :
    decScalar (bs ++ r) = some (.bin b, r) := by
  simp only [encScalar] at h
  unfold binHeader at h
  split_ifs at h with h1 h2 h3 <;>
    simp only [Option.map_some', Option.map_none'] at h <;> cases h
  · -- bin8
    show decScalar ((0xc4 :: b.length :: b) ++ r) = some (.bin b, r)
    simp only [List.cons_append, decScalar]
    norm_num [readN_one, beVal_singleton, readN_exact r rfl]
  · -- bin16
    show decScalar ((0xc5 :: (beBytes 2 b.length ++ b)) ++ r) = some (.bin b, r)
    simp only [List.cons_append, List.append_assoc, decScalar]
    norm_num [readN_exact (b ++ r) (beBytes_length 2 b.length),
      beVal_beBytes_of_lt (show b.length < 256 ^ 2 by omega), readN_exact r rfl]
  · -- bin32
    show decScalar ((0xc6 :: (beBytes 4 b.length ++ b)) ++ r) = some (.bin b, r)
    simp only [List.cons_append, List.append_assoc, decScalar]
    norm_num [readN_exact (b ++ r) (beBytes_length 4 b.length),
      beVal_beBytes_of_lt (show b.length < 256 ^ 4 by norm_num; omega), readN_exact r rfl]

theorem decScalar_encScalar {v : MsgScalar} {bs : List Nat}
    (h : encScalar v = some bs) (r : List Nat) :
    decScalar (bs ++ r) = some (v, r) := by
  cases v with
  | nil => exact decScalar_encNil h r
  | int i => exact decScalar_encInt h r
  | float bits => exact decScalar_encFloat h r
  | str s => exact decScalar_encStr h r
  | bin b => exact decScalar_encBin h r

theorem encScalar_head {v : MsgScalar} {bs : List Nat} (h : encScalar v = some bs) :
    ∃ b t, bs = b :: t ∧ ¬ isMapHeaderByte b := by
  cases v with
  | nil =>
    simp only [encScalar] at h
    cases h
    exact ⟨0xc0, [], rfl, by decide⟩
  | int i =>
    simp only [encScalar] at h
    unfold encInt at h
    by_cases h0 : 0 ≤ i
    · rw [if_pos h0] at h
      split_ifs at h with h1 h2 h3 h4 h5 <;> cases h <;>
        exact ⟨_, _, rfl, by unfold isMapHeaderByte; omega⟩
    · rw [if_neg h0] at h
      split_ifs at h with h1 h2 h3 h4 h5 <;> cases h <;>
        exact ⟨_, _, rfl, by unfold isMapHeaderByte; omega⟩
  | float bits =>
    simp only [encScalar] at h
    split_ifs at h with h1
    cases h
    exact ⟨_, _, rfl, by decide⟩
  | str s =>
    simp only [encScalar] at h
    unfold strHeader at h
    split_ifs at h with h1 h2 h3 h4 <;>
      simp only [Option.map_some', Option.map_none'] at h <;> cases h <;>
      exact ⟨_, _, rfl, by unfold isMapHeaderByte; omega⟩
  | bin b =>
    simp only [encScalar] at h
    unfold binHeader at h
    split_ifs at h with h1 h2 h3 <;>
      simp only [Option.map_some', Option.map_none'] at h <;> cases h <;>
      exact ⟨_, _, rfl, by unfold isMapHeaderByte; omega⟩

theorem decValue_encScalar {v : MsgScalar} {bs : List Nat}
    (h : encScalar v = some bs) (r : List Nat) :
    decValue (bs ++ r) = some (.scalar v, r) := by
  obtain ⟨b, t, rfl, hb⟩ := encScalar_head h
  have hd := decScalar_encScalar h r
  simp only [List.cons_append] at hd ⊢
  simp only [decValue, if_neg hb, hd]
  rfl

theorem mapHeader_head {n : Nat} {bs : List Nat} (h : mapHeader n = some bs) :
    ∃ b t, bs = b :: t ∧ isMapHeaderByte b := by
  unfold mapHeader at h
  split_ifs at h with h1 h2 h3 <;> cases h <;>
    exact ⟨_, _, rfl, by unfold isMapHeaderByte; omega⟩

theorem decMapHeader_mapHeader {n : Nat} {bs : List Nat}
    (h : mapHeader n = some bs) (r : List Nat) :
    decMapHeader (bs ++ r) = some (n, r) := by
  unfold mapHeader at h
  split_ifs at h with h1 h2 h3 <;> cases h
  · -- fixmap
    simp only [List.cons_append, decMapHeader]
    rw [if_pos (show 0x80 ≤ 0x80 + n ∧ 0x80 + n < 0x90 by omega)]
    rw [show 0x80 + n - 0x80 = n by omega, List.nil_append]
  · -- map16
    simp only [List.cons_append, decMapHeader]
    norm_num [readN_exact r (beBytes_length 2 n),
      beVal_beBytes_of_lt (show n < 256 ^ 2 by omega)]
  · -- map32
    simp only [List.cons_append, decMapHeader]
    norm_num [readN_exact r (beBytes_length 4 n),
      beVal_beBytes_of_lt (show n < 256 ^ 4 by norm_num; omega)]

theorem decEntries_encEntries {es : List (List Nat × MsgScalar)} {bs : List Nat}
    (h : encEntries es = some bs) (r : List Nat) :
    decEntries es.length (bs ++ r) = some (es, r) := by
  induction es generalizing bs r with
  | nil =>
    simp only [encEntries] at h
    cases h
    simp [decEntries]
  | cons kv rest ih =>
    obtain ⟨k, v⟩ := kv
    simp only [encEntries] at h
    cases hk : encScalar (.str k) with
    | none => rw [hk] at h; simp at h
    | some kb =>
      rw [hk] at h
      cases hv : encScalar v with
      | none => rw [hv] at h; simp at h
      | some vb =>
        rw [hv] at h
        cases hrest : encEntries rest with
        | none => rw [hrest] at h; simp at h
        | some rb =>
          rw [hrest] at h
          simp only [Option.some.injEq] at h
          subst h
          simp [decEntries, decScalar_encStr hk, decScalar_encScalar hv, ih hrest]

theorem decValue_encValue {v : MsgValue} {bs : List Nat}
    (h : encValue v = some bs) (r : List Nat) :
    decValue (bs ++ r) = some (v, r) := by
  cases v with
  | scalar sc => exact decValue_encScalar h r
  | map es =>
    simp only [encValue] at h
    cases hh : mapHeader es.length with
    | none => rw [hh] at h; simp at h
    | some hd =>
      rw [hh] at h
      cases hb : encEntries es with
      | none => rw [hb] at h; simp at h
      | some body =>
        rw [hb] at h
        simp only [Option.some.injEq] at h
        subst h
        obtain ⟨b, t, hbt, hmap⟩ := mapHeader_head hh
        rw [show (hd ++ body) ++ r = hd ++ (body ++ r) by simp [List.append_assoc]]
        rw [hbt]
        simp only [List.cons_append, decValue, if_pos hmap]
        rw [← List.cons_append, ← hbt]
        rw [decMapHeader_mapHeader hh (body ++ r)]
        simp [decEntries_encEntries hb]

theorem decTopEntries_encTopEntries {es : List (List Nat × MsgValue)} {bs : List Nat}
    (h : encTopEntries es = some bs) (r : List Nat) :
    decTopEntries es.length (bs ++ r) = some (es, r) := by
  induction es generalizing bs r with
  | nil =>
    simp only [encTopEntries] at h
    cases h
    simp [decTopEntries]
  | cons kv rest ih =>
    obtain ⟨k, v⟩ := kv
    simp only [encTopEntries] at h
    cases hk : encScalar (.str k) with
    | none => rw [hk] at h; simp at h
    | some kb =>
      rw [hk] at h
      cases hv : encValue v with
      | none => rw [hv] at h; simp at h
      | some vb =>
        rw [hv] at h
        cases hrest : encTopEntries rest with
        | none => rw [hrest] at h; simp at h
        | some rb =>
          rw [hrest] at h
          simp only [Option.some.injEq] at h
          subst h
          simp [decTopEntries, decScalar_encStr hk, decValue_encValue hv, ih hrest]

/-- Round trip of the wire format: whatever map `pack_msg` serializes,
`unpack_msg` recovers. -/
theorem unpack_msg_pack_msg {es : List (List Nat × MsgValue)} {bs : List Nat}
    (h : pack_msg es = some bs) :
    unpack_msg bs = some es := by
  simp only [pack_msg] at h
  cases hh : mapHeader es.length with
  | none => rw [hh] at h; simp at h
  | some hd =>
    rw [hh] at h
    cases hb : encTopEntries es with
    | none => rw [hb] at h; simp at h
    | some body =>
      rw [hb] at h
      simp only [Option.some.injEq] at h
      subst h
      unfold unpack_msg
      rw [decMapHeader_mapHeader hh body]
      have hbody : decTopEntries es.length body = some (es, []) := by
        have := decTopEntries_encTopEntries hb []
        simpa using this
      simp [hbody]

/-! ## The numpy buffer layer

`Species._dump` turns every `numpy.ndarray` field into its raw contiguous
little-endian float64 buffer (`_array_to_bytes`,
src/atomdb/api.py:80-92), and `load` reinterprets every byte string as a
float64 array of length `len/8` (`numpy.frombuffer`,
src/atomdb/api.py:294).  Elements are 64-bit IEEE-754 patterns.
-/

/-- Embeds `_array_to_bytes` (src/atomdb/api.py:80-92): the contiguous
little-endian float64 buffer of a 1-D array. -/
def array_to_bytes (a : List Nat) : List Nat :=
  (a.map (leBytes 8)).flatten

/-- Embeds `numpy.frombuffer` with the default `float64` dtype: cut the
buffer into 8-byte little-endian words (`load`, src/atomdb/api.py:294). -/
def frombuffer : List Nat → List Nat
  | b0 :: b1 :: b2 :: b3 :: b4 :: b5 :: b6 :: b7 :: rest =>
    leVal [b0, b1, b2, b3, b4, b5, b6, b7] :: frombuffer rest
  | _ => []

theorem frombuffer_block {l : List Nat} (rest : List Nat) (hl : l.length = 8) :
    frombuffer (l ++ rest) = leVal l :: frombuffer rest := by
  cases l with
  | nil => simp at hl
  | cons b0 t0 =>
  cases t0 with
  | nil => simp at hl
  | cons b1 t1 =>
  cases t1 with
  | nil => simp at hl
  | cons b2 t2 =>
  cases t2 with
  | nil => simp at hl
  | cons b3 t3 =>
  cases t3 with
  | nil => simp at hl
  | cons b4 t4 =>
  cases t4 with
  | nil => simp at hl
  | cons b5 t5 =>
  cases t5 with
  | nil => simp at hl
  | cons b6 t6 =>
  cases t6 with
  | nil => simp at hl
  | cons b7 t7 =>
  cases t7 with
  | cons b8 t8 => simp at hl
  | nil => rfl

theorem frombuffer_nil : frombuffer [] = [] := rfl

/-- Bit-exact round trip of the buffer layer: cutting the dumped buffer
back into 8-byte words recovers the array. -/
theorem frombuffer_array_to_bytes {a : List Nat} (h : ∀ x ∈ a, x < 2 ^ 64) :
    frombuffer (array_to_bytes a) = a := by
  induction a with
  | nil => simp [array_to_bytes, frombuffer_nil]
  | cons x xs ih =>
    have hx : x < 2 ^ 64 := h x (by simp)
    have hxs : ∀ y ∈ xs, y < 2 ^ 64 := fun y hy => h y (by simp [hy])
    show frombuffer (leBytes 8 x ++ (xs.map (leBytes 8)).flatten) = x :: xs
    rw [frombuffer_block _ (leBytes_length 8 x)]
    rw [leVal_leBytes_of_lt (show x < 256 ^ 8 by norm_num; omega)]
    exact congrArg (x :: ·) (ih hxs)

/-! ## The species record

`SpeciesData` (src/atomdb/api.py:95-157) is the persisted dataclass;
`Species` (src/atomdb/api.py:160-174) adds the derived instance
attributes `charge` and `mult`, which `dataclasses.asdict` does not see.
The scalar type `α` is the model of a float64: `Nat` bit patterns for
the codec claims, `ℝ` for the spline claims.
-/

/-- Embeds the dataclass `SpeciesData` (src/atomdb/api.py:95-157), in
declared field order. -/
structure SpeciesData (α : Type) where
  dataset : List Nat
  elem : List Nat
  natom : Int
  basis : List Nat
  nelec : Int
  nspin : Int
  nexc : Int
  cov_radii : List (List Nat × Option α)
  vdw_radii : List (List Nat × Option α)
  mass : α
  energy : Option α
  mo_energies : Option (List α)
  mo_occs : Option (List α)
  ip : Option α
  mu : Option α
  eta : Option α
  rs : Option (List α)
  dens_up : Option (List α)
  dens_dn : Option (List α)
  dens_tot : Option (List α)
  dens_mag : Option (List α)
  d_dens_up : Option (List α)
  d_dens_dn : Option (List α)
  d_dens_tot : Option (List α)
  d_dens_mag : Option (List α)
  lapl_up : Option (List α)
  lapl_dn : Option (List α)
  lapl_tot : Option (List α)
  lapl_mag : Option (List α)
  ked_up : Option (List α)
  ked_dn : Option (List α)
  ked_tot : Option (List α)
  ked_mag : Option (List α)
deriving DecidableEq

/-- Embeds `Species` (src/atomdb/api.py:160-174): the dataclass fields
plus the derived instance attributes set by `__init__`. -/
structure Species (α : Type) extends SpeciesData α where
  charge : Int
  mult : Int
deriving DecidableEq

/-- Embeds `Species.__init__` (src/atomdb/api.py:163-174): construct
from the dataclass fields and compute the derived attributes. -/
def mkSpecies {α : Type} (d : SpeciesData α) : Species α :=
  { toSpeciesData := d, charge := d.natom - d.nelec, mult := d.nspin + 1 }

/-- UTF-8 bytes of the field name `dataset`. -/
def kDataset : List Nat := [100, 97, 116, 97, 115, 101, 116]

/-- UTF-8 bytes of the field name `elem`. -/
def kElem : List Nat := [101, 108, 101, 109]

/-- UTF-8 bytes of the field name `natom`. -/
def kNatom : List Nat := [110, 97, 116, 111, 109]

/-- UTF-8 bytes of the field name `basis`. -/
def kBasis : List Nat := [98, 97, 115, 105, 115]

/-- UTF-8 bytes of the field name `nelec`. -/
def kNelec : List Nat := [110, 101, 108, 101, 99]

/-- UTF-8 bytes of the field name `nspin`. -/
def kNspin : List Nat := [110, 115, 112, 105, 110]

/-- UTF-8 bytes of the field name `nexc`. -/
def kNexc : List Nat := [110, 101, 120, 99]

/-- UTF-8 bytes of the field name `cov_radii`. -/
def kCovRadii : List Nat := [99, 111, 118, 95, 114, 97, 100, 105, 105]

/-- UTF-8 bytes of the field name `vdw_radii`. -/
def kVdwRadii : List Nat := [118, 100, 119, 95, 114, 97, 100, 105, 105]

/-- UTF-8 bytes of the field name `mass`. -/
def kMass : List Nat := [109, 97, 115, 115]

/-- UTF-8 bytes of the field name `energy`. -/
def kEnergy : List Nat := [101, 110, 101, 114, 103, 121]

/-- UTF-8 bytes of the field name `mo_energies`. -/
def kMoEnergies : List Nat := [109, 111, 95, 101, 110, 101, 114, 103, 105, 101, 115]

/-- UTF-8 bytes of the field name `mo_occs`. -/
def kMoOccs : List Nat := [109, 111, 95, 111, 99, 99, 115]

/-- UTF-8 bytes of the field name `ip`. -/
def kIp : List Nat := [105, 112]

/-- UTF-8 bytes of the field name `mu`. -/
def kMu : List Nat := [109, 117]

/-- UTF-8 bytes of the field name `eta`. -/
def kEta : List Nat := [101, 116, 97]

/-- UTF-8 bytes of the field name `rs`. -/
def kRs : List Nat := [114, 115]

/-- UTF-8 bytes of the field name `dens_up`. -/
def kDensUp : List Nat := [100, 101, 110, 115, 95, 117, 112]

/-- UTF-8 bytes of the field name `dens_dn`. -/
def kDensDn : List Nat := [100, 101, 110, 115, 95, 100, 110]

/-- UTF-8 bytes of the field name `dens_tot`. -/
def kDensTot : List Nat := [100, 101, 110, 115, 95, 116, 111, 116]

/-- UTF-8 bytes of the field name `dens_mag`. -/
def kDensMag : List Nat := [100, 101, 110, 115, 95, 109, 97, 103]

/-- UTF-8 bytes of the field name `d_dens_up`. -/
def kDDensUp : List Nat := [100, 95, 100, 101, 110, 115, 95, 117, 112]

/-- UTF-8 bytes of the field name `d_dens_dn`. -/
def kDDensDn : List Nat := [100, 95, 100, 101, 110, 115, 95, 100, 110]

/-- UTF-8 bytes of the field name `d_dens_tot`. -/
def kDDensTot : List Nat := [100, 95, 100, 101, 110, 115, 95, 116, 111, 116]

/-- UTF-8 bytes of the field name `d_dens_mag`. -/
def kDDensMag : List Nat := [100, 95, 100, 101, 110, 115, 95, 109, 97, 103]

/-- UTF-8 bytes of the field name `lapl_up`. -/
def kLaplUp : List Nat := [108, 97, 112, 108, 95, 117, 112]

/-- UTF-8 bytes of the field name `lapl_dn`. -/
def kLaplDn : List Nat := [108, 97, 112, 108, 95, 100, 110]

/-- UTF-8 bytes of the field name `lapl_tot`. -/
def kLaplTot : List Nat := [108, 97, 112, 108, 95, 116, 111, 116]

/-- UTF-8 bytes of the field name `lapl_mag`. -/
def kLaplMag : List Nat := [108, 97, 112, 108, 95, 109, 97, 103]

/-- UTF-8 bytes of the field name `ked_up`. -/
def kKedUp : List Nat := [107, 101, 100, 95, 117, 112]

/-- UTF-8 bytes of the field name `ked_dn`. -/
def kKedDn : List Nat := [107, 101, 100, 95, 100, 110]

/-- UTF-8 bytes of the field name `ked_tot`. -/
def kKedTot : List Nat := [107, 101, 100, 95, 116, 111, 116]

/-- UTF-8 bytes of the field name `ked_mag`. -/
def kKedMag : List Nat := [107, 101, 100, 95, 109, 97, 103]

/-- An optional float field as dumped: `None` becomes nil. -/
def optScalar : Option Nat → MsgScalar
  | none => .nil
  | some bits => .float bits

/-- A radius dictionary as dumped: values are floats or `None`. -/
def radiiVal (d : List (List Nat × Option Nat)) : MsgValue :=
  .map (d.map (fun kv => (kv.1, optScalar kv.2)))

/-- An optional array field as dumped: `None` becomes nil, an array
becomes its raw buffer (`_array_to_bytes`). -/
def arrVal : Option (List Nat) → MsgValue
  | none => .scalar .nil
  | some a => .scalar (.bin (array_to_bytes a))

/-- Embeds the map comprehension of `Species._dump`
(src/atomdb/api.py:282): `asdict(self)` in field order, with every
`ndarray` replaced by its raw bytes. -/
def Species.dumpMsg (s : Species Nat) : List (List Nat × MsgValue) :=
  [   (kDataset, (.scalar (.str s.dataset))),
   (kElem, (.scalar (.str s.elem))),
   (kNatom, (.scalar (.int s.natom))),
   (kBasis, (.scalar (.str s.basis))),
   (kNelec, (.scalar (.int s.nelec))),
   (kNspin, (.scalar (.int s.nspin))),
   (kNexc, (.scalar (.int s.nexc))),
   (kCovRadii, (radiiVal s.cov_radii)),
   (kVdwRadii, (radiiVal s.vdw_radii)),
   (kMass, (.scalar (.float s.mass))),
   (kEnergy, (.scalar (optScalar s.energy))),
   (kMoEnergies, (arrVal s.mo_energies)),
   (kMoOccs, (arrVal s.mo_occs)),
   (kIp, (.scalar (optScalar s.ip))),
   (kMu, (.scalar (optScalar s.mu))),
   (kEta, (.scalar (optScalar s.eta))),
   (kRs, (arrVal s.rs)),
   (kDensUp, (arrVal s.dens_up)),
   (kDensDn, (arrVal s.dens_dn)),
   (kDensTot, (arrVal s.dens_tot)),
   (kDensMag, (arrVal s.dens_mag)),
   (kDDensUp, (arrVal s.d_dens_up)),
   (kDDensDn, (arrVal s.d_dens_dn)),
   (kDDensTot, (arrVal s.d_dens_tot)),
   (kDDensMag, (arrVal s.d_dens_mag)),
   (kLaplUp, (arrVal s.lapl_up)),
   (kLaplDn, (arrVal s.lapl_dn)),
   (kLaplTot, (arrVal s.lapl_tot)),
   (kLaplMag, (arrVal s.lapl_mag)),
   (kKedUp, (arrVal s.ked_up)),
   (kKedDn, (arrVal s.ked_dn)),
   (kKedTot, (arrVal s.ked_tot)),
   (kKedMag, (arrVal s.ked_mag))]

/-- Embeds `Species._dump` (src/atomdb/api.py:277-285) up to the file
write: the MessagePack bytes of the record. -/
def Species.dump (s : Species Nat) : Option (List Nat) :=
  pack_msg s.dumpMsg

/-- A decoded Python value as seen by `load` after the byte-to-array
comprehension (src/atomdb/api.py:294). -/
inductive PyVal where
  | vnone : PyVal
  | vint (i : Int) : PyVal
  | vfloat (bits : Nat) : PyVal
  | vstr (s : List Nat) : PyVal
  | varr (a : List Nat) : PyVal
  | vmap (es : List (List Nat × MsgScalar)) : PyVal
deriving DecidableEq

/-- Embeds `frombuffer(v) if isinstance(v, bytes) else v` on a scalar. -/
def pyScalar : MsgScalar → PyVal
  | .nil => .vnone
  | .int i => .vint i
  | .float b => .vfloat b
  | .str s => .vstr s
  | .bin b => .varr (frombuffer b)

/-- Embeds `frombuffer(v) if isinstance(v, bytes) else v` on one decoded
map value. -/
def pyVal : MsgValue → PyVal
  | .scalar sc => pyScalar sc
  | .map es => .vmap es

/-- Keyword-argument extraction of a string-typed field. -/
def asStr : PyVal → Option (List Nat)
  | .vstr s => some s
  | _ => none

/-- Keyword-argument extraction of an int-typed field. -/
def asInt : PyVal → Option Int
  | .vint i => some i
  | _ => none

/-- Keyword-argument extraction of a float-typed field. -/
def asFloat : PyVal → Option Nat
  | .vfloat b => some b
  | _ => none

/-- Keyword-argument extraction of an optional float field. -/
def asOptFloat : PyVal → Option (Option Nat)
  | .vnone => some none
  | .vfloat b => some (some b)
  | _ => none

/-- Keyword-argument extraction of an optional array field. -/
def asOptArr : PyVal → Option (Option (List Nat))
  | .vnone => some none
  | .varr a => some (some a)
  | _ => none

/-- One radius-dictionary entry: a float or `None`. -/
def radEntry : MsgScalar → Option (Option Nat)
  | .nil => some none
  | .float b => some (some b)
  | _ => none

/-- All radius-dictionary entries. -/
def radiiOfEntries : List (List Nat × MsgScalar) → Option (List (List Nat × Option Nat))
  | [] => some []
  | (k, v) :: rest =>
    match radEntry v, radiiOfEntries rest with
    | some ov, some r => some ((k, ov) :: r)
    | _, _ => none

/-- Keyword-argument extraction of a radius dictionary. -/
def asRadii : PyVal → Option (List (List Nat × Option Nat))
  | .vmap es => radiiOfEntries es
  | _ => none

/-- Embeds `Species(**msg)`: construct the dataclass from the decoded
keyword map; the keys must be exactly the dataclass field names and each
value must have the field type. -/
def speciesFromKwargs (m : List (List Nat × PyVal)) : Option (SpeciesData Nat) :=
  if m.length = 33 then
    match (m.lookup kDataset).bind asStr with
    | none => none
    | some v_dataset =>
     match (m.lookup kElem).bind asStr with
     | none => none
     | some v_elem =>
      match (m.lookup kNatom).bind asInt with
      | none => none
      | some v_natom =>
       match (m.lookup kBasis).bind asStr with
       | none => none
       | some v_basis =>
        match (m.lookup kNelec).bind asInt with
        | none => none
        | some v_nelec =>
         match (m.lookup kNspin).bind asInt with
         | none => none
         | some v_nspin =>
          match (m.lookup kNexc).bind asInt with
          | none => none
          | some v_nexc =>
           match (m.lookup kCovRadii).bind asRadii with
           | none => none
           | some v_cov_radii =>
            match (m.lookup kVdwRadii).bind asRadii with
            | none => none
            | some v_vdw_radii =>
             match (m.lookup kMass).bind asFloat with
             | none => none
             | some v_mass =>
              match (m.lookup kEnergy).bind asOptFloat with
              | none => none
              | some v_energy =>
               match (m.lookup kMoEnergies).bind asOptArr with
               | none => none
               | some v_mo_energies =>
                match (m.lookup kMoOccs).bind asOptArr with
                | none => none
                | some v_mo_occs =>
                 match (m.lookup kIp).bind asOptFloat with
                 | none => none
                 | some v_ip =>
                  match (m.lookup kMu).bind asOptFloat with
                  | none => none
                  | some v_mu =>
                   match (m.lookup kEta).bind asOptFloat with
                   | none => none
                   | some v_eta =>
                    match (m.lookup kRs).bind asOptArr with
                    | none => none
                    | some v_rs =>
                     match (m.lookup kDensUp).bind asOptArr with
                     | none => none
                     | some v_dens_up =>
                      match (m.lookup kDensDn).bind asOptArr with
                      | none => none
                      | some v_dens_dn =>
                       match (m.lookup kDensTot).bind asOptArr with
                       | none => none
                       | some v_dens_tot =>
                        match (m.lookup kDensMag).bind asOptArr with
                        | none => none
                        | some v_dens_mag =>
                         match (m.lookup kDDensUp).bind asOptArr with
                         | none => none
                         | some v_d_dens_up =>
                          match (m.lookup kDDensDn).bind asOptArr with
                          | none => none
                          | some v_d_dens_dn =>
                           match (m.lookup kDDensTot).bind asOptArr with
                           | none => none
                           | some v_d_dens_tot =>
                            match (m.lookup kDDensMag).bind asOptArr with
                            | none => none
                            | some v_d_dens_mag =>
                             match (m.lookup kLaplUp).bind asOptArr with
                             | none => none
                             | some v_lapl_up =>
                              match (m.lookup kLaplDn).bind asOptArr with
                              | none => none
                              | some v_lapl_dn =>
                               match (m.lookup kLaplTot).bind asOptArr with
                               | none => none
                               | some v_lapl_tot =>
                                match (m.lookup kLaplMag).bind asOptArr with
                                | none => none
                                | some v_lapl_mag =>
                                 match (m.lookup kKedUp).bind asOptArr with
                                 | none => none
                                 | some v_ked_up =>
                                  match (m.lookup kKedDn).bind asOptArr with
                                  | none => none
                                  | some v_ked_dn =>
                                   match (m.lookup kKedTot).bind asOptArr with
                                   | none => none
                                   | some v_ked_tot =>
                                    match (m.lookup kKedMag).bind asOptArr with
                                    | none => none
                                    | some v_ked_mag =>
                                     some {
                                         dataset := v_dataset,
                                         elem := v_elem,
                                         natom := v_natom,
                                         basis := v_basis,
                                         nelec := v_nelec,
                                         nspin := v_nspin,
                                         nexc := v_nexc,
                                         cov_radii := v_cov_radii,
                                         vdw_radii := v_vdw_radii,
                                         mass := v_mass,
                                         energy := v_energy,
                                         mo_energies := v_mo_energies,
                                         mo_occs := v_mo_occs,
                                         ip := v_ip,
                                         mu := v_mu,
                                         eta := v_eta,
                                         rs := v_rs,
                                         dens_up := v_dens_up,
                                         dens_dn := v_dens_dn,
                                         dens_tot := v_dens_tot,
                                         dens_mag := v_dens_mag,
                                         d_dens_up := v_d_dens_up,
                                         d_dens_dn := v_d_dens_dn,
                                         d_dens_tot := v_d_dens_tot,
                                         d_dens_mag := v_d_dens_mag,
                                         lapl_up := v_lapl_up,
                                         lapl_dn := v_lapl_dn,
                                         lapl_tot := v_lapl_tot,
                                         lapl_mag := v_lapl_mag,
                                         ked_up := v_ked_up,
                                         ked_dn := v_ked_dn,
                                         ked_tot := v_ked_tot,
                                         ked_mag := v_ked_mag }
  else none

/-- Embeds `load` (src/atomdb/api.py:288-294) from the file bytes on:
unpack the map, reinterpret byte strings as float64 arrays, construct
the `Species`. -/
def load (bs : List Nat) : Option (Species Nat) :=
  match unpack_msg bs with
  | some es => (speciesFromKwargs (es.map (fun kv => (kv.1, pyVal kv.2)))).map mkSpecies
  | none => none

/-! ## Record-level round trip -/

/-- All entries of an optional array field are genuine 64-bit patterns. -/
def arrWF : Option (List Nat) → Bool
  | none => true
  | some a => a.all (fun x => decide (x < 2 ^ 64))

theorem arrWF_spec {v : Option (List Nat)} (h : arrWF v = true) :
    ∀ a ∈ v, ∀ x ∈ a, x < 2 ^ 64 := by
  intro a ha x hx
  cases v with
  | none => cases ha
  | some b =>
    cases ha
    simpa using (List.all_eq_true.mp h) x hx

/-- Every array field of the record holds 64-bit float patterns (true of
any `numpy.float64` array; the `Nat` model is wider). -/
def arraysWF (s : Species Nat) : Prop :=
  arrWF s.mo_energies = true ∧
  arrWF s.mo_occs = true ∧
  arrWF s.rs = true ∧
  arrWF s.dens_up = true ∧
  arrWF s.dens_dn = true ∧
  arrWF s.dens_tot = true ∧
  arrWF s.dens_mag = true ∧
  arrWF s.d_dens_up = true ∧
  arrWF s.d_dens_dn = true ∧
  arrWF s.d_dens_tot = true ∧
  arrWF s.d_dens_mag = true ∧
  arrWF s.lapl_up = true ∧
  arrWF s.lapl_dn = true ∧
  arrWF s.lapl_tot = true ∧
  arrWF s.lapl_mag = true ∧
  arrWF s.ked_up = true ∧
  arrWF s.ked_dn = true ∧
  arrWF s.ked_tot = true ∧
  arrWF s.ked_mag = true

instance (s : Species Nat) : Decidable (arraysWF s) := by
  unfold arraysWF
  infer_instance

theorem asOptFloat_optScalar (v : Option Nat) :
    asOptFloat (pyVal (.scalar (optScalar v))) = some v := by
  cases v <;> rfl

theorem asOptArr_arrVal {v : Option (List Nat)} (h : ∀ a ∈ v, ∀ x ∈ a, x < 2 ^ 64) :
    asOptArr (pyVal (arrVal v)) = some v := by
  cases v with
  | none => rfl
  | some a =>
    show asOptArr (.varr (frombuffer (array_to_bytes a))) = some (some a)
    rw [frombuffer_array_to_bytes (h a rfl)]
    rfl

theorem radEntry_optScalar (v : Option Nat) : radEntry (optScalar v) = some v := by
  cases v <;> rfl

theorem asRadii_radiiVal (d : List (List Nat × Option Nat)) :
    asRadii (pyVal (radiiVal d)) = some d := by
  show radiiOfEntries (d.map (fun kv => (kv.1, optScalar kv.2))) = some d
  induction d with
  | nil => rfl
  | cons kv rest ih =>
    obtain ⟨k, v⟩ := kv
    simp [radiiOfEntries, radEntry_optScalar, ih]

/-- Reconstructing the keyword map that `Species._dump` wrote gives back
exactly the persisted dataclass fields. -/
theorem speciesFromKwargs_dumpMsg (s : Species Nat) (hwf : arraysWF s) :
    speciesFromKwargs (s.dumpMsg.map (fun kv => (kv.1, pyVal kv.2))) = some s.toSpeciesData := by
  obtain ⟨hw0, hw1, hw2, hw3, hw4, hw5, hw6, hw7, hw8, hw9, hw10, hw11, hw12, hw13, hw14, hw15, hw16, hw17, hw18⟩ := hwf
  set m := s.dumpMsg.map (fun kv => (kv.1, pyVal kv.2)) with hm
  have h_dataset : (m.lookup kDataset).bind asStr = some s.dataset := rfl
  have h_elem : (m.lookup kElem).bind asStr = some s.elem := rfl
  have h_natom : (m.lookup kNatom).bind asInt = some s.natom := rfl
  have h_basis : (m.lookup kBasis).bind asStr = some s.basis := rfl
  have h_nelec : (m.lookup kNelec).bind asInt = some s.nelec := rfl
  have h_nspin : (m.lookup kNspin).bind asInt = some s.nspin := rfl
  have h_nexc : (m.lookup kNexc).bind asInt = some s.nexc := rfl
  have h_cov_radii : (m.lookup kCovRadii).bind asRadii = some s.cov_radii := by
    rw [show m.lookup kCovRadii = some (pyVal (radiiVal s.cov_radii)) from rfl, Option.some_bind]
    exact asRadii_radiiVal s.cov_radii
  have h_vdw_radii : (m.lookup kVdwRadii).bind asRadii = some s.vdw_radii := by
    rw [show m.lookup kVdwRadii = some (pyVal (radiiVal s.vdw_radii)) from rfl, Option.some_bind]
    exact asRadii_radiiVal s.vdw_radii
  have h_mass : (m.lookup kMass).bind asFloat = some s.mass := rfl
  have h_energy : (m.lookup kEnergy).bind asOptFloat = some s.energy := by
    rw [show m.lookup kEnergy = some (pyVal (.scalar (optScalar s.energy))) from rfl, Option.some_bind]
    exact asOptFloat_optScalar s.energy
  have h_mo_energies : (m.lookup kMoEnergies).bind asOptArr = some s.mo_energies := by
    rw [show m.lookup kMoEnergies = some (pyVal (arrVal s.mo_energies)) from rfl, Option.some_bind]
    exact asOptArr_arrVal (arrWF_spec hw0)
  have h_mo_occs : (m.lookup kMoOccs).bind asOptArr = some s.mo_occs := by
    rw [show m.lookup kMoOccs = some (pyVal (arrVal s.mo_occs)) from rfl, Option.some_bind]
    exact asOptArr_arrVal (arrWF_spec hw1)
  have h_ip : (m.lookup kIp).bind asOptFloat = some s.ip := by
    rw [show m.lookup kIp = some (pyVal (.scalar (optScalar s.ip))) from rfl, Option.some_bind]
    exact asOptFloat_optScalar s.ip
  have h_mu : (m.lookup kMu).bind asOptFloat = some s.mu := by
    rw [show m.lookup kMu = some (pyVal (.scalar (optScalar s.mu))) from rfl, Option.some_bind]
    exact asOptFloat_optScalar s.mu
  have h_eta : (m.lookup kEta).bind asOptFloat = some s.eta := by
    rw [show m.lookup kEta = some (pyVal (.scalar (optScalar s.eta))) from rfl, Option.some_bind]
    exact asOptFloat_optScalar s.eta
  have h_rs : (m.lookup kRs).bind asOptArr = some s.rs := by
    rw [show m.lookup kRs = some (pyVal (arrVal s.rs)) from rfl, Option.some_bind]
    exact asOptArr_arrVal (arrWF_spec hw2)
  have h_dens_up : (m.lookup kDensUp).bind asOptArr = some s.dens_up := by
    rw [show m.lookup kDensUp = some (pyVal (arrVal s.dens_up)) from rfl, Option.some_bind]
    exact asOptArr_arrVal (arrWF_spec hw3)
  have h_dens_dn : (m.lookup kDensDn).bind asOptArr = some s.dens_dn := by
    rw [show m.lookup kDensDn = some (pyVal (arrVal s.dens_dn)) from rfl, Option.some_bind]
    exact asOptArr_arrVal (arrWF_spec hw4)
  have h_dens_tot : (m.lookup kDensTot).bind asOptArr = some s.dens_tot := by
    rw [show m.lookup kDensTot = some (pyVal (arrVal s.dens_tot)) from rfl, Option.some_bind]
    exact asOptArr_arrVal (arrWF_spec hw5)
  have h_dens_mag : (m.lookup kDensMag).bind asOptArr = some s.dens_mag := by
    rw [show m.lookup kDensMag = some (pyVal (arrVal s.dens_mag)) from rfl, Option.some_bind]
    exact asOptArr_arrVal (arrWF_spec hw6)
  have h_d_dens_up : (m.lookup kDDensUp).bind asOptArr = some s.d_dens_up := by
    rw [show m.lookup kDDensUp = some (pyVal (arrVal s.d_dens_up)) from rfl, Option.some_bind]
    exact asOptArr_arrVal (arrWF_spec hw7)
  have h_d_dens_dn : (m.lookup kDDensDn).bind asOptArr = some s.d_dens_dn := by
    rw [show m.lookup kDDensDn = some (pyVal (arrVal s.d_dens_dn)) from rfl, Option.some_bind]
    exact asOptArr_arrVal (arrWF_spec hw8)
  have h_d_dens_tot : (m.lookup kDDensTot).bind asOptArr = some s.d_dens_tot := by
    rw [show m.lookup kDDensTot = some (pyVal (arrVal s.d_dens_tot)) from rfl, Option.some_bind]
    exact asOptArr_arrVal (arrWF_spec hw9)
  have h_d_dens_mag : (m.lookup kDDensMag).bind asOptArr = some s.d_dens_mag := by
    rw [show m.lookup kDDensMag = some (pyVal (arrVal s.d_dens_mag)) from rfl, Option.some_bind]
    exact asOptArr_arrVal (arrWF_spec hw10)
  have h_lapl_up : (m.lookup kLaplUp).bind asOptArr = some s.lapl_up := by
    rw [show m.lookup kLaplUp = some (pyVal (arrVal s.lapl_up)) from rfl, Option.some_bind]
    exact asOptArr_arrVal (arrWF_spec hw11)
  have h_lapl_dn : (m.lookup kLaplDn).bind asOptArr = some s.lapl_dn := by
    rw [show m.lookup kLaplDn = some (pyVal (arrVal s.lapl_dn)) from rfl, Option.some_bind]
    exact asOptArr_arrVal (arrWF_spec hw12)
  have h_lapl_tot : (m.lookup kLaplTot).bind asOptArr = some s.lapl_tot := by
    rw [show m.lookup kLaplTot = some (pyVal (arrVal s.lapl_tot)) from rfl, Option.some_bind]
    exact asOptArr_arrVal (arrWF_spec hw13)
  have h_lapl_mag : (m.lookup kLaplMag).bind asOptArr = some s.lapl_mag := by
    rw [show m.lookup kLaplMag = some (pyVal (arrVal s.lapl_mag)) from rfl, Option.some_bind]
    exact asOptArr_arrVal (arrWF_spec hw14)
  have h_ked_up : (m.lookup kKedUp).bind asOptArr = some s.ked_up := by
    rw [show m.lookup kKedUp = some (pyVal (arrVal s.ked_up)) from rfl, Option.some_bind]
    exact asOptArr_arrVal (arrWF_spec hw15)
  have h_ked_dn : (m.lookup kKedDn).bind asOptArr = some s.ked_dn := by
    rw [show m.lookup kKedDn = some (pyVal (arrVal s.ked_dn)) from rfl, Option.some_bind]
    exact asOptArr_arrVal (arrWF_spec hw16)
  have h_ked_tot : (m.lookup kKedTot).bind asOptArr = some s.ked_tot := by
    rw [show m.lookup kKedTot = some (pyVal (arrVal s.ked_tot)) from rfl, Option.some_bind]
    exact asOptArr_arrVal (arrWF_spec hw17)
  have h_ked_mag : (m.lookup kKedMag).bind asOptArr = some s.ked_mag := by
    rw [show m.lookup kKedMag = some (pyVal (arrVal s.ked_mag)) from rfl, Option.some_bind]
    exact asOptArr_arrVal (arrWF_spec hw18)
  unfold speciesFromKwargs
  rw [if_pos (show m.length = 33 from rfl)]
  simp only [h_dataset, h_elem, h_natom, h_basis, h_nelec, h_nspin, h_nexc, h_cov_radii, h_vdw_radii, h_mass, h_energy, h_mo_energies, h_mo_occs, h_ip, h_mu, h_eta, h_rs, h_dens_up, h_dens_dn, h_dens_tot, h_dens_mag, h_d_dens_up, h_d_dens_dn, h_d_dens_tot, h_d_dens_mag, h_lapl_up, h_lapl_dn, h_lapl_tot, h_lapl_mag, h_ked_up, h_ked_dn, h_ked_tot, h_ked_mag, Option.some_bind]

/-- Record-level round trip: decoding the bytes `Species._dump` produced
reconstructs a `Species` with the identical persisted fields (and freshly
recomputed derived attributes). -/
theorem load_dump {s : Species Nat} {bs : List Nat}
    (hwf : arraysWF s) (h : Species.dump s = some bs) :
    load bs = some (mkSpecies s.toSpeciesData) := by
  unfold Species.dump at h
  unfold load
  rw [unpack_msg_pack_msg h]
  simp only [speciesFromKwargs_dumpMsg s hwf, Option.map_some']

/-! ## Element table and path resolution

`ELEMENTS` (src/atomdb/api.py:63-77) is the 119-entry tuple whose zeroth
entry is a placeholder; `element_number`/`element_symbol`
(src/atomdb/api.py:321-328) convert between symbols and numbers with
plain tuple lookup/indexing; `Species._msgfile`
(src/atomdb/api.py:272-275) formats the database path.
-/

/-- Python exception kinds raised by the embedded code. -/
inductive PyErr where
  | keyError (k : String) : PyErr
  | valueError (msg : String) : PyErr
  | notImplementedError (msg : String) : PyErr
  | typeError : PyErr
  | indexError : PyErr
deriving DecidableEq

instance {ε α : Type} [DecidableEq ε] [DecidableEq α] : DecidableEq (Except ε α) := fun x y =>
  match x, y with
  | .ok a, .ok b =>
    if h : a = b then isTrue (by rw [h]) else isFalse (fun hc => by cases hc; exact h rfl)
  | .error a, .error b =>
    if h : a = b then isTrue (by rw [h]) else isFalse (fun hc => by cases hc; exact h rfl)
  | .ok _, .error _ => isFalse (fun hc => by cases hc)
  | .error _, .ok _ => isFalse (fun hc => by cases hc)

/-- Embeds the `ELEMENTS` tuple (src/atomdb/api.py:63-77): the zeroth
entry is the `"\0"` placeholder, entries 1..118 are the element symbols. -/
def ELEMENTS : List String :=
  ["\x00", "H", "He", "Li", "Be", "B", "C", "N", "O", "F", "Ne", "Na",
   "Mg", "Al", "Si", "P", "S", "Cl", "Ar", "K", "Ca", "Sc", "Ti", "V",
   "Cr", "Mn", "Fe", "Co", "Ni", "Cu", "Zn", "Ga", "Ge", "As", "Se", "Br",
   "Kr", "Rb", "Sr", "Y", "Zr", "Nb", "Mo", "Tc", "Ru", "Rh", "Pd", "Ag",
   "Cd", "In", "Sn", "Sb", "Te", "I", "Xe", "Cs", "Ba", "La", "Ce", "Pr",
   "Nd", "Pm", "Sm", "Eu", "Gd", "Tb", "Dy", "Ho", "Er", "Tm", "Yb", "Lu",
   "Hf", "Ta", "W", "Re", "Os", "Ir", "Pt", "Au", "Hg", "Tl", "Pb", "Bi",
   "Po", "At", "Rn", "Fr", "Ra", "Ac", "Th", "Pa", "U", "Np", "Pu", "Am",
   "Cm", "Bk", "Cf", "Es", "Fm", "Md", "No", "Lr", "Rf", "Db", "Sg", "Bh",
   "Hs", "Mt", "Ds", "Rg", "Cn", "Nh", "Fl", "Mc", "Lv", "Ts", "Og"]

/-- An element argument: Python callers pass either an atomic number or
a symbol string. -/
inductive Elem where
  | num (z : Int) : Elem
  | sym (s : String) : Elem
deriving DecidableEq

/-- Embeds Python `tuple.index`: position of the first occurrence, or a
`ValueError` when absent. -/
def tupleIndex (l : List String) (s : String) : Except PyErr Int :=
  match l.findIdx? (fun t => t == s) with
  | some i => .ok (i : Int)
  | none => .error (.valueError "not in tuple")

/-- Embeds `element_number` (src/atomdb/api.py:321-323): strings are
looked up in `ELEMENTS`, anything else is returned unchanged. -/
def element_number : Elem → Except PyErr Int
  | .sym s => tupleIndex ELEMENTS s
  | .num z => .ok z

/-- Embeds Python sequence indexing `l[i]`: negative indices count from
the end, out-of-range indices raise `IndexError`. -/
def pySubscript (l : List String) (i : Int) : Except PyErr String :=
  if h : 0 ≤ (if i < 0 then i + l.length else i) ∧
      (if i < 0 then i + l.length else i) < l.length then
    .ok (l.get ⟨(if i < 0 then i + l.length else i).toNat, by omega⟩)
  else .error .indexError

/-- Embeds `element_symbol` (src/atomdb/api.py:326-328): numbers index
into `ELEMENTS`, strings are returned unchanged. -/
def element_symbol : Elem → Except PyErr String
  | .sym s => .ok s
  | .num z => pySubscript ELEMENTS z

/-- The string form an element argument takes inside an f-string. -/
def elemRepr : Elem → String
  | .num z => toString z
  | .sym s => s

/-- Embeds `str.lower()` on the ASCII dataset names used here. -/
def strLower (s : String) : String :=
  ⟨s.data.map Char.toLower⟩

/-- Embeds `os.path.join` for the relative second components used here. -/
def pathJoin (a b : String) : String :=
  if a = "" then b
  else if a.endsWith "/" then a ++ b
  else a ++ "/" ++ b

/-- Embeds `Species._msgfile` (src/atomdb/api.py:272-275): the database
entry path.  The element argument is interpolated verbatim into the
f-string; `load` (src/atomdb/api.py:291) passes the caller-supplied
element straight through. -/
def msgfile (elem : Elem) (charge mult nexc : Int) (dataset datapath : String) : String :=
  pathJoin datapath
    (strLower dataset ++ "/db/" ++ elemRepr elem ++ "_" ++ toString charge ++ "_" ++
      toString mult ++ "_" ++ toString nexc ++ ".msg")

/-! ## The spline engine

`cubic_interp` (src/atomdb/api.py:353-356) builds a cubic spline
interpolant through `(x, y)` with extrapolation; `interp1d_log`
(src/atomdb/api.py:341-350) fits the spline to `log(y)` and applies
`exp` to every evaluation.  The external `scipy.interpolate.interp1d`
primitive is modelled as the natural cubic spline through the points:
second derivatives from the standard tridiagonal system (Thomas
algorithm), piecewise-cubic evaluation, and extension of the boundary
pieces beyond the grid.  Evaluation at the knots does not depend on the
choice of second derivatives, which is what the grid-point claims rest
on.
-/

/-- One cubic piece on `[x0, x1]` in the standard second-derivative
form: the unique cubic with second derivatives `m0`, `m1` and values
`y0`, `y1` at the ends. -/
def segEval {F : Type} [LinearOrderedField F] (x0 y0 m0 x1 y1 m1 p : F) : F :=
  m0 * (x1 - p) ^ 3 / (6 * (x1 - x0)) + m1 * (p - x0) ^ 3 / (6 * (x1 - x0)) +
    (y0 / (x1 - x0) - m0 * (x1 - x0) / 6) * (x1 - p) +
    (y1 / (x1 - x0) - m1 * (x1 - x0) / 6) * (p - x0)

/-- Piecewise evaluation over knot triples `(x, y, m)`: use the first
piece whose right end is at or past `p`, the last piece beyond the grid
(spline extrapolation). -/
def splineEvalAux {F : Type} [LinearOrderedField F] :
    (F × F × F) → List (F × F × F) → F → F
  | (_, y0, _), [], _ => y0
  | (x0, y0, m0), [(x1, y1, m1)], p => segEval x0 y0 m0 x1 y1 m1 p
  | (x0, y0, m0), (x1, y1, m1) :: t1 :: rest, p =>
    if p ≤ x1 then segEval x0 y0 m0 x1 y1 m1 p
    else splineEvalAux (x1, y1, m1) (t1 :: rest) p

/-- Interior equations `h(i-1)·M(i-1) + 2(h(i-1)+h(i))·M(i) + h(i)·M(i+1) = rhs`
of the natural cubic spline. -/
def splineEqns {F : Type} [LinearOrderedField F] : List F → List F → List (F × F × F × F)
  | x0 :: x1 :: x2 :: xr, y0 :: y1 :: y2 :: yr =>
    (x1 - x0, 2 * (x2 - x0), x2 - x1,
      6 * ((y2 - y1) / (x2 - x1) - (y1 - y0) / (x1 - x0)))
      :: splineEqns (x1 :: x2 :: xr) (y1 :: y2 :: yr)
  | _, _ => []

/-- Forward sweep of the Thomas algorithm. -/
def thomasFwd {F : Type} [LinearOrderedField F] : F → F → List (F × F × F × F) → List (F × F)
  | _, _, [] => []
  | cp, dp, (a, b, c, d) :: rest =>
    (c / (b - a * cp), (d - a * dp) / (b - a * cp)) ::
      thomasFwd (c / (b - a * cp)) ((d - a * dp) / (b - a * cp)) rest

/-- Back substitution of the Thomas algorithm (on the reversed sweep). -/
def thomasBack {F : Type} [LinearOrderedField F] : F → List (F × F) → List F
  | _, [] => []
  | nxt, (cp, dp) :: rest => (dp - cp * nxt) :: thomasBack (dp - cp * nxt) rest

/-- Second derivatives of the natural cubic spline through
`(xs, ys)`: zero at both ends, Thomas solve on the interior. -/
def splineM {F : Type} [LinearOrderedField F] (xs ys : List F) : List F :=
  match xs with
  | [] => []
  | [_] => [0]
  | [_, _] => [0, 0]
  | _ :: _ :: _ :: _ =>
    0 :: (thomasBack 0 ((thomasFwd 0 0 (splineEqns xs ys)).reverse)).reverse ++ [0]

/-- Zip of grid, samples and second derivatives. -/
def zip3 {α β γ : Type} : List α → List β → List γ → List (α × β × γ)
  | a :: as, b :: bs, c :: cs => (a, b, c) :: zip3 as bs cs
  | _, _, _ => []

/-- Model of the external `scipy.interpolate.interp1d(x, y, kind="cubic",
fill_value="extrapolate", assume_sorted=True)` primitive applied to one
point: the natural cubic spline through `(xs, ys)`. -/
def splineEvalList {F : Type} [LinearOrderedField F] : List (F × F × F) → F → F
  | [], _ => 0
  | t :: ts, p => splineEvalAux t ts p

def interp1d {F : Type} [LinearOrderedField F] (xs ys : List F) (p : F) : F :=
  splineEvalList (zip3 xs ys (splineM xs ys)) p

/-- Embeds `interp1d_log` (src/atomdb/api.py:341-350): the spline is
fitted to `log(y)` at construction and every evaluation is
exponentiated. -/
noncomputable def interp1d_log (xs ys : List ℝ) (p : ℝ) : ℝ :=
  Real.exp (interp1d xs (ys.map Real.log) p)

/-- Embeds `cubic_interp` (src/atomdb/api.py:353-356): choose
`interp1d_log` when `log=True`, else plain `interp1d`. -/
noncomputable def cubic_interp (xs ys : List ℝ) (lg : Bool) : ℝ → ℝ :=
  fun p => if lg then interp1d_log xs ys p else interp1d xs ys p

theorem segEval_left {F : Type} [LinearOrderedField F]
    {x0 x1 : F} (h : x0 < x1) (y0 m0 y1 m1 : F) :
    segEval x0 y0 m0 x1 y1 m1 x0 = y0 := by
  have hne : x1 - x0 ≠ 0 := sub_ne_zero.mpr h.ne'
  unfold segEval
  field_simp
  ring

theorem segEval_right {F : Type} [LinearOrderedField F]
    {x0 x1 : F} (h : x0 < x1) (y0 m0 y1 m1 : F) :
    segEval x0 y0 m0 x1 y1 m1 x1 = y1 := by
  have hne : x1 - x0 ≠ 0 := sub_ne_zero.mpr h.ne'
  unfold segEval
  field_simp
  ring

theorem splineEvalAux_knot {F : Type} [LinearOrderedField F] (ts : List (F × F × F)) :
    ∀ t : F × F × F,
      List.Pairwise (fun a b : F × F × F => a.1 < b.1) (t :: ts) →
      ∀ q ∈ t :: ts, splineEvalAux t ts q.1 = q.2.1 := by
  induction ts with
  | nil =>
    intro t _ q hq
    simp only [List.mem_singleton] at hq
    subst hq
    obtain ⟨x0, y0, m0⟩ := q
    rfl
  | cons t1 rest ih =>
    intro t hp q hq
    obtain ⟨x0, y0, m0⟩ := t
    obtain ⟨x1, y1, m1⟩ := t1
    have hx01 : x0 < x1 := (List.pairwise_cons.mp hp).1 (x1, y1, m1) (by simp)
    have hp1 : List.Pairwise (fun a b : F × F × F => a.1 < b.1) ((x1, y1, m1) :: rest) :=
      (List.pairwise_cons.mp hp).2
    rcases List.mem_cons.mp hq with hq0 | hq'
    · subst hq0
      cases rest with
      | nil => exact segEval_left hx01 y0 m0 y1 m1
      | cons t2 r2 =>
        show (if x0 ≤ x1 then segEval x0 y0 m0 x1 y1 m1 x0
          else splineEvalAux (x1, y1, m1) (t2 :: r2) x0) = y0
        rw [if_pos hx01.le]
        exact segEval_left hx01 y0 m0 y1 m1
    · rcases List.mem_cons.mp hq' with hq1 | hq2
      · subst hq1
        cases rest with
        | nil => exact segEval_right hx01 y0 m0 y1 m1
        | cons t2 r2 =>
          show (if x1 ≤ x1 then segEval x0 y0 m0 x1 y1 m1 x1
            else splineEvalAux (x1, y1, m1) (t2 :: r2) x1) = y1
          rw [if_pos le_rfl]
          exact segEval_right hx01 y0 m0 y1 m1
      · have hx1q : x1 < q.1 := (List.pairwise_cons.mp hp1).1 q hq2
        cases rest with
        | nil => cases hq2
        | cons t2 r2 =>
          show (if q.1 ≤ x1 then segEval x0 y0 m0 x1 y1 m1 q.1
            else splineEvalAux (x1, y1, m1) (t2 :: r2) q.1) = q.2.1
          rw [if_neg (not_le.mpr hx1q)]
          exact ih (x1, y1, m1) hp1 q (List.mem_cons_of_mem _ hq2)

theorem zip3_length {α β γ : Type} :
    ∀ (as : List α) (bs : List β) (cs : List γ),
      (zip3 as bs cs).length = min as.length (min bs.length cs.length)
  | [], bs, cs => by simp only [zip3, List.length_nil]; omega
  | a :: as, [], cs => by simp only [zip3, List.length_nil, List.length_cons]; omega
  | a :: as, b :: bs, [] => by simp only [zip3, List.length_nil, List.length_cons]; omega
  | a :: as, b :: bs, c :: cs => by
    simp only [zip3, List.length_cons, zip3_length as bs cs]
    omega

theorem zip3_get {α β γ : Type} :
    ∀ (as : List α) (bs : List β) (cs : List γ) (j : Nat)
      (hja : j < as.length) (hjb : j < bs.length) (hjc : j < cs.length)
      (hj : j < (zip3 as bs cs).length),
      (zip3 as bs cs).get ⟨j, hj⟩ = (as.get ⟨j, hja⟩, bs.get ⟨j, hjb⟩, cs.get ⟨j, hjc⟩)
  | a :: as, b :: bs, c :: cs, 0, _, _, _, _ => rfl
  | a :: as, b :: bs, c :: cs, j + 1, hja, hjb, hjc, hj => by
    simp only [List.length_cons] at hja hjb hjc
    have hj' : j < (zip3 as bs cs).length := by
      simp only [zip3, List.length_cons] at hj
      omega
    simp only [zip3, List.get_cons_succ]
    exact zip3_get as bs cs j (by omega) (by omega) (by omega) hj'

theorem zip3_fst_mem {α β γ : Type} :
    ∀ {as : List α} {bs : List β} {cs : List γ} {q : α × β × γ},
      q ∈ zip3 as bs cs → q.1 ∈ as
  | [], _, _, _, h => by simp [zip3] at h
  | a :: as, [], _, _, h => by simp [zip3] at h
  | a :: as, b :: bs, [], _, h => by simp [zip3] at h
  | a :: as, b :: bs, c :: cs, q, h => by
    rcases List.mem_cons.mp h with h0 | h1
    · subst h0; exact List.mem_cons_self a as
    · exact List.mem_cons_of_mem _ (zip3_fst_mem h1)

theorem zip3_pairwise {α β γ : Type} {R : α → α → Prop} :
    ∀ {as : List α} (bs : List β) (cs : List γ),
      List.Pairwise R as →
      List.Pairwise (fun p q : α × β × γ => R p.1 q.1) (zip3 as bs cs)
  | [], _, _, _ => by simp [zip3]
  | a :: as, [], _, _ => by simp [zip3]
  | a :: as, b :: bs, [], _ => by simp [zip3]
  | a :: as, b :: bs, c :: cs, h => by
    rw [show zip3 (a :: as) (b :: bs) (c :: cs) = (a, b, c) :: zip3 as bs cs from rfl]
    refine List.pairwise_cons.mpr ⟨?_, zip3_pairwise bs cs (List.pairwise_cons.mp h).2⟩
    intro q hq
    exact (List.pairwise_cons.mp h).1 q.1 (zip3_fst_mem hq)

theorem splineEqns_length {F : Type} [LinearOrderedField F] :
    ∀ xs ys : List F, (splineEqns xs ys).length = min xs.length ys.length - 2
  | [], ys => by simp only [splineEqns, List.length_nil]; omega
  | [x0], ys => by simp only [splineEqns, List.length_nil, List.length_cons]; omega
  | [x0, x1], ys => by simp only [splineEqns, List.length_nil, List.length_cons]; omega
  | x0 :: x1 :: x2 :: xr, [] => by
    simp only [splineEqns, List.length_nil, List.length_cons]; omega
  | x0 :: x1 :: x2 :: xr, [y0] => by
    simp only [splineEqns, List.length_nil, List.length_cons]; omega
  | x0 :: x1 :: x2 :: xr, [y0, y1] => by
    simp only [splineEqns, List.length_nil, List.length_cons]; omega
  | x0 :: x1 :: x2 :: xr, y0 :: y1 :: y2 :: yr => by
    simp only [splineEqns, List.length_cons,
      splineEqns_length (x1 :: x2 :: xr) (y1 :: y2 :: yr)]
    omega

theorem thomasFwd_length {F : Type} [LinearOrderedField F] :
    ∀ (cp dp : F) (l : List (F × F × F × F)), (thomasFwd cp dp l).length = l.length
  | _, _, [] => rfl
  | cp, dp, (a, b, c, d) :: rest => by
    simp only [thomasFwd, List.length_cons,
      thomasFwd_length (c / (b - a * cp)) ((d - a * dp) / (b - a * cp)) rest]

theorem thomasBack_length {F : Type} [LinearOrderedField F] :
    ∀ (nxt : F) (l : List (F × F)), (thomasBack nxt l).length = l.length
  | _, [] => rfl
  | nxt, (cp, dp) :: rest => by
    simp only [thomasBack, List.length_cons, thomasBack_length (dp - cp * nxt) rest]

theorem splineM_length {F : Type} [LinearOrderedField F] :
    ∀ (xs ys : List F), ys.length = xs.length → (splineM xs ys).length = xs.length
  | [], ys, _ => rfl
  | [x0], ys, _ => rfl
  | [x0, x1], ys, _ => rfl
  | x0 :: x1 :: x2 :: xr, ys, h => by
    simp only [splineM, List.length_cons, List.length_append, List.length_reverse,
      thomasBack_length, thomasFwd_length, splineEqns_length, List.length_singleton,
      List.length_nil]
    simp only [List.length_cons] at h
    omega

theorem splineEvalList_knot {F : Type} [LinearOrderedField F] (l : List (F × F × F))
    (hp : List.Pairwise (fun a b : F × F × F => a.1 < b.1) l)
    (q : F × F × F) (hq : q ∈ l) :
    splineEvalList l q.1 = q.2.1 := by
  cases l with
  | nil => cases hq
  | cons t ts => exact splineEvalAux_knot ts t hp q hq

theorem interp1d_knot {F : Type} [LinearOrderedField F] {xs ys : List F}
    (hp : List.Pairwise (· < ·) xs) (hl : ys.length = xs.length)
    (j : Nat) (hj : j < xs.length) :
    interp1d xs ys (xs.get ⟨j, hj⟩) = ys.get ⟨j, by omega⟩ := by
  have hm : (splineM xs ys).length = xs.length := splineM_length xs ys hl
  have hzl : (zip3 xs ys (splineM xs ys)).length = xs.length := by
    rw [zip3_length]; omega
  have hq := zip3_get xs ys (splineM xs ys) j hj (by omega) (by omega) (by omega)
  have hmem : (xs.get ⟨j, hj⟩, ys.get ⟨j, by omega⟩, (splineM xs ys).get ⟨j, by omega⟩) ∈
      zip3 xs ys (splineM xs ys) := by
    rw [← hq]
    exact List.get_mem (zip3 xs ys (splineM xs ys)) j (by omega)
  have hpz : List.Pairwise (fun a b : F × F × F => a.1 < b.1) (zip3 xs ys (splineM xs ys)) :=
    zip3_pairwise ys (splineM xs ys) hp
  unfold interp1d
  exact splineEvalList_knot _ hpz _ hmem

/-! ## The spline methods of `Species`

Each of the four methods (src/atomdb/api.py:179-255) builds an inline
spin-dispatch dictionary, raises `NotImplementedError` when an orbital
subset is requested, `KeyError` when the spin selector is not a
dictionary key, `ValueError` when the selected channel array is `None`,
and otherwise evaluates `cubic_interp` on the radial grid at the given
points. -/

/-- The spin dispatch dictionary of `Species.dens_spline`
(src/atomdb/api.py:196-204). -/
def densSpins (r : Species ℝ) : List (String × Option (List ℝ)) :=
  [("a", r.dens_up), ("b", r.dens_dn), ("ab", r.dens_tot), ("m", r.dens_mag)]

/-- Embeds `Species.dens_spline` (src/atomdb/api.py:196-204). -/
noncomputable def dens_spline (r : Species ℝ) (points : List ℝ) (spin : String)
    (index : Option (List Int)) (lg : Bool) : Except PyErr (List ℝ) :=
  match index with
  | none =>
    match (densSpins r).lookup spin with
    | none => .error (.keyError spin)
    | some (some arr) =>
      match r.rs with
      | some rs => .ok (points.map (cubic_interp rs arr lg))
      | none => .error .typeError
    | some none => .error (.valueError s!"Density spline for occupied `{spin}` spin-orbitals unavailable")
  | some _ => .error (.notImplementedError "Desnity for a subset of orbitals is not supported yet.")

/-- The spin dispatch dictionary of `Species.d_dens_spline`
(src/atomdb/api.py:206-231). -/
def dDensSpins (r : Species ℝ) : List (String × Option (List ℝ)) :=
  [("a", r.d_dens_up), ("b", r.d_dens_dn), ("ab", r.d_dens_tot), ("m", r.d_dens_mag)]

/-- Embeds `Species.d_dens_spline` (src/atomdb/api.py:206-231). -/
noncomputable def d_dens_spline (r : Species ℝ) (points : List ℝ) (spin : String)
    (index : Option (List Int)) (lg : Bool) : Except PyErr (List ℝ) :=
  match index with
  | none =>
    match (dDensSpins r).lookup spin with
    | none => .error (.keyError spin)
    | some (some arr) =>
      match r.rs with
      | some rs => .ok (points.map (cubic_interp rs arr lg))
      | none => .error .typeError
    | some none => .error (.valueError s!"Density derivative spline for occupied `{spin}` spin-orbitals unavailable.")
  | some _ => .error (.notImplementedError "Desnity derivative for a subset of orbitals is not supported yet.")

/-- The spin dispatch dictionary of `Species.ked_spline`
(src/atomdb/api.py:233-243). -/
def kedSpins (r : Species ℝ) : List (String × Option (List ℝ)) :=
  [("a", r.ked_up), ("b", r.ked_dn), ("ab", r.ked_tot), ("m", r.ked_mag)]

/-- Embeds `Species.ked_spline` (src/atomdb/api.py:233-243). -/
noncomputable def ked_spline (r : Species ℝ) (points : List ℝ) (spin : String)
    (index : Option (List Int)) (lg : Bool) : Except PyErr (List ℝ) :=
  match index with
  | none =>
    match (kedSpins r).lookup spin with
    | none => .error (.keyError spin)
    | some (some arr) =>
      match r.rs with
      | some rs => .ok (points.map (cubic_interp rs arr lg))
      | none => .error .typeError
    | some none => .error (.valueError s!"Kinetic energy density for occupied `{spin}` spin-orbitals unavailable.")
  | some _ => .error (.notImplementedError "Kinetic energy density for a subset of orbitals is not supported yet.")

/-- The spin dispatch dictionary of `Species.lapl_spline`
(src/atomdb/api.py:245-255). -/
def laplSpins (r : Species ℝ) : List (String × Option (List ℝ)) :=
  [("a", r.lapl_up), ("b", r.lapl_dn), ("ab", r.lapl_tot), ("m", r.lapl_mag)]

/-- Embeds `Species.lapl_spline` (src/atomdb/api.py:245-255). -/
noncomputable def lapl_spline (r : Species ℝ) (points : List ℝ) (spin : String)
    (index : Option (List Int)) (lg : Bool) : Except PyErr (List ℝ) :=
  match index with
  | none =>
    match (laplSpins r).lookup spin with
    | none => .error (.keyError spin)
    | some (some arr) =>
      match r.rs with
      | some rs => .ok (points.map (cubic_interp rs arr lg))
      | none => .error .typeError
    | some none => .error (.valueError s!"Density laplacian for occupied `{spin}` spin-orbitals unavailable")
  | some _ => .error (.notImplementedError "Desnity laplacian for a subset of orbitals is not supported yet.")

/-! ## Concrete witness fixtures -/

/-- UTF-8 bytes of the derived attribute name `charge` (never a map key). -/
def kCharge : List Nat := [99, 104, 97, 114, 103, 101]

/-- UTF-8 bytes of the derived attribute name `mult` (never a map key). -/
def kMult : List Nat := [109, 117, 108, 116]

/-- A concrete record with a representative subset of the optional
fields populated; the bit patterns are arbitrary float64 words. -/
def wRec : SpeciesData Nat where
  dataset := [104, 99, 105]
  elem := [72]
  natom := 1
  basis := [115, 116, 111]
  nelec := 1
  nspin := 1
  nexc := 0
  cov_radii := [([99, 111], some 4599676419421066581), ([98, 114], none)]
  vdw_radii := []
  mass := 4607182418800017408
  energy := some 13830554455654793216
  mo_energies := some [4607182418800017408, 0]
  mo_occs := none
  ip := none
  mu := some 0
  eta := none
  rs := some [0, 4602678819172646912, 4607182418800017408]
  dens_up := none
  dens_dn := none
  dens_tot := some [4617315517961601024, 4607182418800017408, 4596373779694328218]
  dens_mag := none
  d_dens_up := none
  d_dens_dn := none
  d_dens_tot := none
  d_dens_mag := none
  lapl_up := none
  lapl_dn := none
  lapl_tot := none
  lapl_mag := none
  ked_up := none
  ked_dn := none
  ked_tot := some [4607182418800017408]
  ked_mag := none

/-- A concrete real-valued record with every optional channel absent
(spline-method witnesses). -/
def wRecR : SpeciesData ℝ where
  dataset := [104, 99, 105]
  elem := [72]
  natom := 1
  basis := []
  nelec := 1
  nspin := 1
  nexc := 0
  cov_radii := []
  vdw_radii := []
  mass := 0
  energy := none
  mo_energies := none
  mo_occs := none
  ip := none
  mu := none
  eta := none
  rs := none
  dens_up := none
  dens_dn := none
  dens_tot := none
  dens_mag := none
  d_dens_up := none
  d_dens_dn := none
  d_dens_tot := none
  d_dens_mag := none
  lapl_up := none
  lapl_dn := none
  lapl_tot := none
  lapl_mag := none
  ked_up := none
  ked_dn := none
  ked_tot := none
  ked_mag := none

/-! ## Supporting lemmas for the claims -/

theorem pathJoin_right_inj {a b1 b2 : String} (h : pathJoin a b1 = pathJoin a b2) :
    b1 = b2 := by
  unfold pathJoin at h
  split_ifs at h
  · exact h
  · have hd := congrArg String.data h
    simp only [String.data_append] at hd
    exact String.ext (List.append_cancel_left hd)
  · have hd := congrArg String.data h
    simp only [String.data_append, List.append_assoc] at hd
    exact String.ext (List.append_cancel_left (List.append_cancel_left hd))

theorem spins_lookup_none {v1 v2 v3 v4 : Option (List ℝ)} {spin : String}
    (h : spin ≠ "a" ∧ spin ≠ "b" ∧ spin ≠ "ab" ∧ spin ≠ "m") :
    (([("a", v1), ("b", v2), ("ab", v3), ("m", v4)] :
      List (String × Option (List ℝ))).lookup spin) = none := by
  have ha : (spin == "a") = false := beq_eq_false_iff_ne.mpr h.1
  have hb : (spin == "b") = false := beq_eq_false_iff_ne.mpr h.2.1
  have hab : (spin == "ab") = false := beq_eq_false_iff_ne.mpr h.2.2.1
  have hm : (spin == "m") = false := beq_eq_false_iff_ne.mpr h.2.2.2
  simp [List.lookup, ha, hb, hab, hm]

/-! ## The claims -/

/-- Claim C2, counterexample: the same species key given by atomic
number 1 and by the symbol `"H"` resolves to two different paths — the
element component is interpolated verbatim, not normalized through the
element table. -/
theorem claim_C2_counterexample :
    msgfile (.num 1) 0 2 0 "hci" "" ≠ msgfile (.sym "H") 0 2 0 "hci" "" := by
  decide

set_option maxRecDepth 4000 in
/-- Claim C2 as amended: the store resolves a key to
`<dataset-lowercased>/db/<component>_<charge>_<multiplicity>_<excitation>.msg`
joined under the base path, where the element component is the verbatim
symbol string, or the decimal numeral of the atomic number — it is not
normalized through the element table, so the numeric and symbolic forms
of the same element resolve to different paths.  Resolution is a pure
function of the key, so identical keys give identical paths. -/
theorem claim_C2_amended (charge mult nexc : Int) (dataset datapath : String) :
    (∀ s : String, msgfile (.sym s) charge mult nexc dataset datapath =
      pathJoin datapath (strLower dataset ++ "/db/" ++ s ++ "_" ++ toString charge ++ "_" ++
        toString mult ++ "_" ++ toString nexc ++ ".msg")) ∧
    (∀ z : Int, msgfile (.num z) charge mult nexc dataset datapath =
      pathJoin datapath (strLower dataset ++ "/db/" ++ toString z ++ "_" ++ toString charge ++
        "_" ++ toString mult ++ "_" ++ toString nexc ++ ".msg")) ∧
    msgfile (.num 1) 0 2 0 "hci" datapath ≠ msgfile (.sym "H") 0 2 0 "hci" datapath := by
  refine ⟨fun s => rfl, fun z => rfl, fun hc => ?_⟩
  have := pathJoin_right_inj hc
  exact absurd this (by decide)

set_option maxRecDepth 4000 in
/-- Claim C2 witness: the amended path characterization and the
number/symbol divergence at a concrete key. -/
theorem claim_C2_witness :
    msgfile (.sym "H") 0 2 0 "hci" "/data" =
      pathJoin "/data" (strLower "hci" ++ "/db/" ++ "H" ++ "_" ++ toString (0 : Int) ++ "_" ++
        toString (2 : Int) ++ "_" ++ toString (0 : Int) ++ ".msg") ∧
    msgfile (.num 1) 0 2 0 "hci" "/data" ≠ msgfile (.sym "H") 0 2 0 "hci" "/data" :=
  ⟨(claim_C2_amended 0 2 0 "hci" "/data").1 "H", (claim_C2_amended 0 2 0 "hci" "/data").2.2⟩

set_option maxRecDepth 4000 in
/-- Claim C3, counterexample: `element_symbol` applied to the integer
`-1` (outside 0..118) does not fail — Python negative indexing returns
the last symbol `"Og"`. -/
theorem claim_C3_counterexample : element_symbol (.num (-1)) = .ok "Og" := by
  decide

set_option maxRecDepth 4000 in
/-- Claim C3 as amended: integers above 118 or below `-119` raise
`IndexError` (negative integers in `-119..-1` index from the end of the
table instead of failing); strings absent from the 119-entry table raise
a `ValueError`; and the number 0 is accepted, returning the reserved
placeholder string (which is not a canonical symbol), while the
placeholder string maps back to 0. -/
theorem claim_C3_amended :
    (∀ z : Int, 118 < z ∨ z < -119 → element_symbol (.num z) = .error .indexError) ∧
    (∀ s : String, s ∉ ELEMENTS → element_number (.sym s) =
      .error (.valueError "not in tuple")) ∧
    element_symbol (.num 0) = .ok "\x00" ∧
    element_number (.sym "\x00") = .ok 0 := by
  refine ⟨?_, ?_, by decide, by decide⟩
  · intro z hz
    show pySubscript ELEMENTS z = .error .indexError
    unfold pySubscript
    rw [dif_neg (by rw [show (ELEMENTS : List String).length = 119 from rfl]; omega)]
  · intro s hs
    show tupleIndex ELEMENTS s = .error (.valueError "not in tuple")
    unfold tupleIndex
    have hnone : ELEMENTS.findIdx? (fun t => t == s) = none :=
      List.findIdx?_eq_none_iff.mpr (fun t ht => by
        simp only [beq_eq_false_iff_ne, ne_eq]
        intro hts
        exact hs (hts ▸ ht))
    rw [hnone]

set_option maxRecDepth 4000 in
/-- Claim C3 witness: the amended failure clauses at the concrete
inputs 200 (out of range above) and the unknown symbol `"Xx"`. -/
theorem claim_C3_witness :
    element_symbol (.num 200) = .error .indexError ∧
    element_number (.sym "Xx") = .error (.valueError "not in tuple") :=
  ⟨claim_C3_amended.1 200 (by decide), claim_C3_amended.2.1 "Xx" (by decide)⟩

set_option maxRecDepth 8000 in
/-- Claim C4: `element_number` and `element_symbol` are mutual inverses
over atomic numbers 1..118: each number yields its table symbol, and
that symbol yields the number back. -/
theorem claim_C4_bijection :
    ∀ i : Fin 119, 0 < i.val →
      element_symbol (.num i.val) = .ok (ELEMENTS.get ⟨i.val, i.isLt⟩) ∧
      element_number (.sym (ELEMENTS.get ⟨i.val, i.isLt⟩)) = .ok i.val := by
  decide

set_option maxRecDepth 4000 in
/-- Claim C4 witness: carbon, atomic number 6. -/
theorem claim_C4_witness :
    element_symbol (.num 6) = .ok "C" ∧ element_number (.sym "C") = .ok 6 :=
  claim_C4_bijection ⟨6, by decide⟩ (by decide)

/-- Claim C1: round trip of the record codec — for every species record
(any subset of the optional scalar and array fields populated) whose
encoding succeeds, decoding the bytes written by `Species._dump`
reproduces every persisted field exactly: string and numeric scalars and
the radius dictionaries are equal, and every array field is recovered
bit-exact as float64 words of length bytes/8. -/
theorem claim_C1_roundtrip (s : Species Nat) (bs : List Nat)
    (hwf : arraysWF s) (h : Species.dump s = some bs) :
    load bs = some (mkSpecies s.toSpeciesData) :=
  load_dump hwf h

set_option maxRecDepth 100000 in
/-- Claim C1 witness: a concrete record with a representative subset of
fields populated survives dump-then-load unchanged. -/
theorem claim_C1_witness :
    load ((Species.dump (mkSpecies wRec)).getD []) = some (mkSpecies wRec) :=
  claim_C1_roundtrip (mkSpecies wRec) ((Species.dump (mkSpecies wRec)).getD [])
    (by decide) (by decide)

/-- Claim C5: on every construction of a species record — including
every load — the derived attribute charge equals natom − nelec and mult
equals nspin + 1, and the serialized map holds exactly the 33 dataclass
field keys: the derived `charge` and `mult` attributes are never among
them. -/
theorem claim_C5_derived {α : Type} (d : SpeciesData α) (s : Species Nat) :
    (mkSpecies d).charge = d.natom - d.nelec ∧
    (mkSpecies d).mult = d.nspin + 1 ∧
    (∀ bs r, load bs = some r → r.charge = r.natom - r.nelec ∧ r.mult = r.nspin + 1) ∧
    (Species.dumpMsg s).map Prod.fst =
      [kDataset, kElem, kNatom, kBasis, kNelec, kNspin, kNexc, kCovRadii, kVdwRadii, kMass,
       kEnergy, kMoEnergies, kMoOccs, kIp, kMu, kEta, kRs, kDensUp, kDensDn, kDensTot,
       kDensMag, kDDensUp, kDDensDn, kDDensTot, kDDensMag, kLaplUp, kLaplDn, kLaplTot,
       kLaplMag, kKedUp, kKedDn, kKedTot, kKedMag] ∧
    kCharge ∉ (Species.dumpMsg s).map Prod.fst ∧
    kMult ∉ (Species.dumpMsg s).map Prod.fst := by
  have hkeys : (Species.dumpMsg s).map Prod.fst =
      [kDataset, kElem, kNatom, kBasis, kNelec, kNspin, kNexc, kCovRadii, kVdwRadii, kMass,
       kEnergy, kMoEnergies, kMoOccs, kIp, kMu, kEta, kRs, kDensUp, kDensDn, kDensTot,
       kDensMag, kDDensUp, kDDensDn, kDDensTot, kDDensMag, kLaplUp, kLaplDn, kLaplTot,
       kLaplMag, kKedUp, kKedDn, kKedTot, kKedMag] := rfl
  refine ⟨rfl, rfl, ?_, hkeys, by rw [hkeys]; decide, by rw [hkeys]; decide⟩
  intro bs r h
  unfold load at h
  cases hu : unpack_msg bs with
  | none => rw [hu] at h; simp at h
  | some es =>
    rw [hu] at h
    have h' : (speciesFromKwargs (es.map (fun kv => (kv.1, pyVal kv.2)))).map mkSpecies =
        some r := h
    rcases Option.map_eq_some'.mp h' with ⟨d', _, rfl⟩
    exact ⟨rfl, rfl⟩

set_option maxRecDepth 100000 in
/-- Claim C5 witness: the derived attributes of a concrete construction
and of the record loaded back from its own dump. -/
theorem claim_C5_witness :
    (mkSpecies wRec).charge = wRec.natom - wRec.nelec ∧
    (mkSpecies wRec).mult = wRec.nspin + 1 ∧
    ((mkSpecies wRec).charge = (mkSpecies wRec).natom - (mkSpecies wRec).nelec ∧
      (mkSpecies wRec).mult = (mkSpecies wRec).nspin + 1) :=
  ⟨(claim_C5_derived wRec (mkSpecies wRec)).1,
   (claim_C5_derived wRec (mkSpecies wRec)).2.1,
   (claim_C5_derived wRec (mkSpecies wRec)).2.2.1
     ((Species.dump (mkSpecies wRec)).getD []) (mkSpecies wRec) (by decide)⟩

/-- Claim C6: for every record and spin selector whose channel array of
the requested family is absent (`None`), the family's spline method with
the orbital-index argument at its default raises the unavailable-channel
`ValueError` and returns no value. -/
theorem claim_C6_unavailable (r : Species ℝ) (points : List ℝ) (spin : String) (lg : Bool) :
    ((densSpins r).lookup spin = some none →
      dens_spline r points spin none lg = .error (.valueError
        s!"Density spline for occupied `{spin}` spin-orbitals unavailable")) ∧
    ((dDensSpins r).lookup spin = some none →
      d_dens_spline r points spin none lg = .error (.valueError
        s!"Density derivative spline for occupied `{spin}` spin-orbitals unavailable.")) ∧
    ((kedSpins r).lookup spin = some none →
      ked_spline r points spin none lg = .error (.valueError
        s!"Kinetic energy density for occupied `{spin}` spin-orbitals unavailable.")) ∧
    ((laplSpins r).lookup spin = some none →
      lapl_spline r points spin none lg = .error (.valueError
        s!"Density laplacian for occupied `{spin}` spin-orbitals unavailable")) := by
  refine ⟨fun h => ?_, fun h => ?_, fun h => ?_, fun h => ?_⟩
  · simp only [dens_spline, h]
  · simp only [d_dens_spline, h]
  · simp only [ked_spline, h]
  · simp only [lapl_spline, h]

/-- Claim C6 witness: a record with no beta-spin arrays raises the
unavailable-channel error for spin `"b"` in all four families. -/
theorem claim_C6_witness :
    dens_spline (mkSpecies wRecR) [] "b" none false = .error (.valueError
      "Density spline for occupied `b` spin-orbitals unavailable") ∧
    d_dens_spline (mkSpecies wRecR) [] "b" none false = .error (.valueError
      "Density derivative spline for occupied `b` spin-orbitals unavailable.") ∧
    ked_spline (mkSpecies wRecR) [] "b" none true = .error (.valueError
      "Kinetic energy density for occupied `b` spin-orbitals unavailable.") ∧
    lapl_spline (mkSpecies wRecR) [] "b" none false = .error (.valueError
      "Density laplacian for occupied `b` spin-orbitals unavailable") :=
  ⟨(claim_C6_unavailable (mkSpecies wRecR) [] "b" false).1 rfl,
   (claim_C6_unavailable (mkSpecies wRecR) [] "b" false).2.1 rfl,
   (claim_C6_unavailable (mkSpecies wRecR) [] "b" true).2.2.1 rfl,
   (claim_C6_unavailable (mkSpecies wRecR) [] "b" false).2.2.2 rfl⟩

/-- Claim C7: every call to any of the four spline methods with a
non-default orbital-index argument raises the distinct
`NotImplementedError` — regardless of spin selector, channel
availability or evaluation points — and no interpolation is returned. -/
theorem claim_C7_subset (r : Species ℝ) (points : List ℝ) (spin : String)
    (idx : List Int) (lg : Bool) :
    dens_spline r points spin (some idx) lg = .error (.notImplementedError
      "Desnity for a subset of orbitals is not supported yet.") ∧
    d_dens_spline r points spin (some idx) lg = .error (.notImplementedError
      "Desnity derivative for a subset of orbitals is not supported yet.") ∧
    ked_spline r points spin (some idx) lg = .error (.notImplementedError
      "Kinetic energy density for a subset of orbitals is not supported yet.") ∧
    lapl_spline r points spin (some idx) lg = .error (.notImplementedError
      "Desnity laplacian for a subset of orbitals is not supported yet.") :=
  ⟨rfl, rfl, rfl, rfl⟩

/-- Claim C10: for every spin selector outside `{"a", "b", "ab", "m"}`
with the orbital-index argument at its default, each spline method fails
with the `KeyError` of the spin-dispatch dictionary — a different error
kind from the unavailable-channel `ValueError` — independently of the
record's channel contents. -/
theorem claim_C10_unknown_spin (r : Species ℝ) (points : List ℝ) (lg : Bool) (spin : String)
    (h : spin ≠ "a" ∧ spin ≠ "b" ∧ spin ≠ "ab" ∧ spin ≠ "m") :
    dens_spline r points spin none lg = .error (.keyError spin) ∧
    d_dens_spline r points spin none lg = .error (.keyError spin) ∧
    ked_spline r points spin none lg = .error (.keyError spin) ∧
    lapl_spline r points spin none lg = .error (.keyError spin) := by
  have hd : (densSpins r).lookup spin = none := spins_lookup_none h
  have hdd : (dDensSpins r).lookup spin = none := spins_lookup_none h
  have hk : (kedSpins r).lookup spin = none := spins_lookup_none h
  have hl : (laplSpins r).lookup spin = none := spins_lookup_none h
  refine ⟨?_, ?_, ?_, ?_⟩
  · simp only [dens_spline, hd]
  · simp only [d_dens_spline, hdd]
  · simp only [ked_spline, hk]
  · simp only [lapl_spline, hl]

/-- Claim C10 witness: the unknown selector `"x"` raises `KeyError` in
all four methods on a concrete record. -/
theorem claim_C10_witness :
    dens_spline (mkSpecies wRecR) [] "x" none false = .error (.keyError "x") ∧
    d_dens_spline (mkSpecies wRecR) [] "x" none false = .error (.keyError "x") ∧
    ked_spline (mkSpecies wRecR) [] "x" none true = .error (.keyError "x") ∧
    lapl_spline (mkSpecies wRecR) [] "x" none false = .error (.keyError "x") := by
  have h1 := claim_C10_unknown_spin (mkSpecies wRecR) [] false "x" (by decide)
  have h2 := claim_C10_unknown_spin (mkSpecies wRecR) [] true "x" (by decide)
  exact ⟨h1.1, h1.2.1, h2.2.2.1, h1.2.2.2⟩

/-- Claim C8: for a strictly increasing grid and a matching-length
channel array (strictly positive when log-domain mode is used),
evaluating the reconstructed spline exactly at a stored grid point
reproduces the stored sample value exactly over real arithmetic, in both
linear and log-domain modes. -/
theorem claim_C8_knots (xs ys : List ℚ) (lg : Bool)
    (hx : List.Pairwise (· < ·) xs) (hl : ys.length = xs.length)
    (hpos : lg = true → ∀ y ∈ ys, 0 < y)
    (j : Nat) (hj : j < xs.length) :
    cubic_interp (xs.map (fun q : ℚ => (q : ℝ))) (ys.map (fun q : ℚ => (q : ℝ))) lg
      ((xs.get ⟨j, hj⟩ : ℚ) : ℝ) = ((ys.get ⟨j, by omega⟩ : ℚ) : ℝ) := by
  have hx' : List.Pairwise (· < ·) (xs.map (fun q : ℚ => (q : ℝ))) := by
    refine List.pairwise_map.mpr (hx.imp ?_)
    intro a b hab
    exact_mod_cast hab
  have hj' : j < (xs.map (fun q : ℚ => (q : ℝ))).length := by simpa using hj
  cases lg with
  | false =>
    have hl' : (ys.map (fun q : ℚ => (q : ℝ))).length = (xs.map (fun q : ℚ => (q : ℝ))).length := by
      simpa using hl
    have hk := interp1d_knot hx' hl' j hj'
    simp only [List.get_map] at hk
    simpa [cubic_interp] using hk
  | true =>
    have hl' : ((ys.map (fun q : ℚ => (q : ℝ))).map Real.log).length =
        (xs.map (fun q : ℚ => (q : ℝ))).length := by simpa using hl
    have hk := interp1d_knot hx' hl' j hj'
    simp only [List.get_map] at hk
    have hy : (0 : ℝ) < (ys.get ⟨j, by omega⟩ : ℚ) := by
      exact_mod_cast hpos rfl (ys.get ⟨j, by omega⟩) (List.get_mem ys j (by omega))
    simp only [cubic_interp, if_pos, interp1d_log]
    rw [hk, Real.exp_log hy]

/-- Claim C8 witness: the log-domain spline over the grid 0,1,2,3
reproduces the stored value 2 at the second grid point. -/
theorem claim_C8_witness :
    List.Pairwise (· < ·) ([0, 1, 2, 3] : List ℚ) ∧
    (∀ y ∈ ([1, 2, 1, 2] : List ℚ), 0 < y) ∧
    cubic_interp (([0, 1, 2, 3] : List ℚ).map (fun q : ℚ => (q : ℝ)))
      (([1, 2, 1, 2] : List ℚ).map (fun q : ℚ => (q : ℝ))) true
      ((([0, 1, 2, 3] : List ℚ).get ⟨1, by decide⟩ : ℚ) : ℝ) =
      ((([1, 2, 1, 2] : List ℚ).get ⟨1, by decide⟩ : ℚ) : ℝ) :=
  ⟨by decide, by decide,
   claim_C8_knots [0, 1, 2, 3] [1, 2, 1, 2] true (by decide) (by decide)
     (fun _ => by decide) 1 (by decide)⟩

/-- Claim C9: for a strictly positive channel array, every value of a
log-domain spline evaluation — at any point, inside or beyond the grid —
is strictly positive, because the spline is fitted to the logarithm of
the samples and the result is exponentiated at evaluation time. -/
theorem claim_C9_log_positive (xs ys : List ℚ) (hpos : ∀ y ∈ ys, 0 < y) (p : ℝ) :
    0 < interp1d_log (xs.map (fun q : ℚ => (q : ℝ))) (ys.map (fun q : ℚ => (q : ℝ))) p :=
  Real.exp_pos _

/-- Claim C9 witness: the log-domain spline over a concrete positive
array is positive at the extrapolated point 37. -/
theorem claim_C9_witness :
    (∀ y ∈ ([5, 1, 2] : List ℚ), 0 < y) ∧
    0 < interp1d_log (([0, 1, 2] : List ℚ).map (fun q : ℚ => (q : ℝ)))
      (([5, 1, 2] : List ℚ).map (fun q : ℚ => (q : ℝ))) 37 :=
  ⟨by decide, claim_C9_log_positive [0, 1, 2] [5, 1, 2] (by decide) 37⟩

end AtomDB

